import Mathlib

/-!
Shallow embedding of the tracking / identity / speed-fusion core of the
Automatic-number-plate-detection-system repository, namely
`unique_vehicle_tracker.py` (class `UniqueVehicleTracker`) and
`advanced_speed.py` (class `AdvancedSpeedCalculator`), together with the
theorems settling the frozen claims about it.

Modelling conventions:
* Python floats are modelled as rationals (`ℚ`); every concrete value in the
  computations under scrutiny is exactly representable.
* A Python runtime fault (the `ZeroDivisionError` in `calculate_similarity`
  for two empty tokens, numpy's `IndexError` when `np.percentile` receives an
  empty array) is modelled as an `Option.none` in an outer `Option` layer of
  the result; an ordinary "no result" (`return None` in the source) is the
  inner `none`.
* `round(x, 1)` (Python / numpy round-half-to-even) is `round1` below.
* The cv2 collaborators (`cvtColor`, `goodFeaturesToTrack`,
  `calcOpticalFlowPyrLK`) are external to the core: a call to
  `calculate_optical_flow_speed` receives their outcome as a `FlowObs`
  record (whether feature points were found, how many tracked points
  survived, and their mean pixel displacement), and the grayscale of the
  current frame is an abstract identifier `current_gray : ℕ`.  The square
  root used by the centroid method is irrational in general, so the
  development is parametrised over a square-root oracle `sq : ℚ → ℚ`;
  no claim depends on its values.
* Python `dict` (insertion-ordered, assignment replaces in place) is an
  association list with `dictInsert`; `defaultdict(list)` is a total
  function `String → List ℚ` defaulting to `[]`.
-/

/-- Round-half-to-even to an integer, as numpy/Python `round` does. -/
def roundHalfEven (x : ℚ) : ℤ :=
  let f : ℤ := ⌊x⌋
  let r : ℚ := x - f
  if r < 1/2 then f else if 1/2 < r then f + 1 else if f % 2 = 0 then f else f + 1

/-- Model of `round(x, 1)`: round to one decimal place, half to even. -/
def round1 (x : ℚ) : ℚ := (roundHalfEven (10 * x) : ℚ) / 10

/-- Model of `np.mean` on a nonempty list. -/
def mean (l : List ℚ) : ℚ := l.sum / l.length

/-- Append to a `collections.deque` with the given `maxlen`: the oldest
entries are evicted from the front once the capacity is exceeded. -/
def dqAppend (maxlen : ℕ) (l : List α) (x : α) : List α :=
  let l2 := l ++ [x]
  if maxlen < l2.length then l2.drop (l2.length - maxlen) else l2

/-- Model of `np.percentile(a, p)` applied to an already sorted list, using
numpy's default linear-interpolation method: the virtual index is
`h = (n-1)*p/100`, and the value interpolates between the order statistics
at `⌊h⌋` and `⌊h⌋+1`. -/
def percentileSorted (l : List ℚ) (p : ℚ) : ℚ :=
  let n := l.length
  let h : ℚ := ((n : ℚ) - 1) * p / 100
  let i : ℕ := (⌊h⌋).toNat
  let g : ℚ := h - (i : ℚ)
  l.getD i 0 + g * (l.getD (i + 1) 0 - l.getD i 0)

/-- Lower Tukey fence `Q1 - 1.5*IQR` of a sorted list
(`lower_bound` in `get_final_speed`). -/
def fenceLower (l : List ℚ) : ℚ :=
  let q25 := percentileSorted l 25
  let q75 := percentileSorted l 75
  q25 - 3/2 * (q75 - q25)

/-- Upper Tukey fence `Q3 + 1.5*IQR` of a sorted list
(`upper_bound` in `get_final_speed`). -/
def fenceUpper (l : List ℚ) : ℚ :=
  let q25 := percentileSorted l 25
  let q75 := percentileSorted l 75
  q75 + 3/2 * (q75 - q25)

/-- The subsequence of `speeds` (in original order, as numpy boolean masking
keeps it) lying within the Tukey fences computed from its quartiles;
`filtered_speeds` in `get_final_speed`.  `np.percentile` sorts internally,
whence the `insertionSort`. -/
def fencedSamples (speeds : List ℚ) : List ℚ :=
  let sorted := speeds.insertionSort (· ≤ ·)
  speeds.filter (fun s => decide (fenceLower sorted ≤ s) && decide (s ≤ fenceUpper sorted))

/-- Status field of a vehicle record (`speed_status` strings in the source,
rendered as an enumeration; the numeric arguments carry the interpolated
counts of the corresponding strings). -/
inductive SpeedStatus where
  | notCalculated : SpeedStatus
  | calculating (n minSamples : ℕ) : SpeedStatus
  | finalized : SpeedStatus
  | estimatedFrom (n : ℕ) : SpeedStatus
  | noData : SpeedStatus
deriving DecidableEq

/-- Bounding region `(x, y, w, h)` in pixels. -/
structure BBox where
  x : ℤ
  y : ℤ
  w : ℤ
  h : ℤ
deriving DecidableEq

/-- The `vehicle_info` dictionary created in `detect_vehicle`. -/
structure VehicleInfo where
  vehicle_id : ℕ
  plate_number : String
  first_detected_frame : ℕ
  detection_time : ℚ
  bbox : BBox
  final_speed : Option ℚ
  speed_status : SpeedStatus
  total_speed_samples : ℕ
deriving DecidableEq

/-- State of a `UniqueVehicleTracker` instance. -/
structure Tracker where
  similarity_threshold : ℚ
  min_speed_samples : ℕ
  detected_plates : List (String × VehicleInfo)
  vehicle_counter : ℕ
  speed_data : String → List ℚ

/-- Constructor state, `UniqueVehicleTracker.__init__`. -/
def initTracker (thr : ℚ) (minS : ℕ) : Tracker :=
  { similarity_threshold := thr
    min_speed_samples := minS
    detected_plates := []
    vehicle_counter := 0
    speed_data := fun _ => [] }

/-- Count of positions where the two character lists agree
(`sum(1 for a, b in zip(plate1, plate2) if a == b)`). -/
def countMatches (a b : List Char) : ℕ :=
  ((a.zip b).filter (fun c => c.1 == c.2)).length

/-- Model of `UniqueVehicleTracker.calculate_similarity`.  Tokens of different length
have similarity `0.0`; equal-length tokens score `matches / len(plate1)`.
For two empty tokens the source divides zero by zero and raises
`ZeroDivisionError`, modelled as `none`. -/
def calculate_similarity (p1 p2 : String) : Option ℚ :=
  if p1.length ≠ p2.length then some 0
  else if p1.length = 0 then none
  else some ((countMatches p1.data p2.data : ℚ) / (p1.length : ℚ))

/-- Model of `UniqueVehicleTracker.is_similar_plate`: scan the registered tokens in
insertion order, returning the first whose similarity reaches the threshold.
Outer `none` is a propagated `ZeroDivisionError`; `some none` means no
registered token qualified. -/
def is_similar_plate (thr : ℚ) (new_plate : String) : List String → Option (Option String)
  | [] => some none
  | q :: rest =>
    match calculate_similarity new_plate q with
    | none => none
    | some s => if thr ≤ s then some (some q) else is_similar_plate thr new_plate rest

/-- Model of `UniqueVehicleTracker.add_speed_sample`: append the sample to the plate's
list only when it is present and within `[5, 150]`. -/
def add_speed_sample (sd : String → List ℚ) (plate : String) (speed : Option ℚ) :
    String → List ℚ :=
  match speed with
  | none => sd
  | some s =>
    if 5 ≤ s ∧ s ≤ 150 then (fun p => if p = plate then sd plate ++ [s] else sd p) else sd

/-- Model of `UniqueVehicleTracker.get_final_speed` on the sample list of one plate.
Result `none` is numpy's `IndexError` (percentile of an empty array, reachable
only when `min_speed_samples = 0`); `some none` is the source's `return None`;
`some (some v)` is a computed final speed. -/
def get_final_speed (minS : ℕ) (speeds : List ℚ) : Option (Option ℚ) :=
  if minS ≤ speeds.length then
    if speeds.length = 0 then none
    else if 0 < (fencedSamples speeds).length then
      some (some (round1 (mean (fencedSamples speeds))))
    else some none
  else some none

/-- Placeholder record for the (unreachable) failed dictionary lookup. -/
def dummyInfo : VehicleInfo :=
  { vehicle_id := 0, plate_number := "", first_detected_frame := 0, detection_time := 0
    bbox := { x := 0, y := 0, w := 0, h := 0 }, final_speed := none
    speed_status := SpeedStatus.notCalculated, total_speed_samples := 0 }

/-- Lookup `detected_plates[k]` in the association-list model of the dict. -/
def lookupInfo (l : List (String × VehicleInfo)) (k : String) : VehicleInfo :=
  ((l.find? (fun e => e.1 == k)).getD (k, dummyInfo)).2

/-- Python dict assignment `d[k] = v`: replace the value in place if the key
exists (keeping its position in insertion order), otherwise append. -/
def dictInsert (l : List (String × VehicleInfo)) (k : String) (v : VehicleInfo) :
    List (String × VehicleInfo) :=
  if l.any (fun e => e.1 == k) then l.map (fun e => if e.1 == k then (k, v) else e)
  else l ++ [(k, v)]

/-- Model of `UniqueVehicleTracker.detect_vehicle`.  Returns the updated tracker state
paired with `some (is_new_detection, vehicle_id, vehicle_info)`, or with
`none` when the call raises (propagated similarity fault, or percentile
fault under `min_speed_samples = 0`); the returned state carries whatever
in-place mutation happened before the raise. -/
def detect_vehicle (t : Tracker) (plate : String) (bb : BBox) (frame : ℕ)
    (speed : Option ℚ) (now : ℚ) : Tracker × Option (Bool × ℕ × VehicleInfo) :=
  match is_similar_plate t.similarity_threshold plate (t.detected_plates.map Prod.fst) with
  | none => (t, none)
  | some (some sp) =>
    let info := lookupInfo t.detected_plates sp
    match speed with
    | some _ =>
      let sd := add_speed_sample t.speed_data sp speed
      match get_final_speed t.min_speed_samples (sd sp) with
      | none => ({ t with speed_data := sd }, none)
      | some fo =>
        let info2 :=
          match fo with
          | some f => { info with final_speed := some f, speed_status := SpeedStatus.finalized }
          | none =>
            { info with speed_status := SpeedStatus.calculating (sd sp).length t.min_speed_samples }
        ({ t with speed_data := sd, detected_plates := dictInsert t.detected_plates sp info2 },
          some (false, info2.vehicle_id, info2))
    | none => (t, some (false, info.vehicle_id, info))
  | some none =>
    let counter := t.vehicle_counter + 1
    let sd := add_speed_sample t.speed_data plate speed
    let base : VehicleInfo :=
      { vehicle_id := counter, plate_number := plate, first_detected_frame := frame
        detection_time := now, bbox := bb, final_speed := none
        speed_status := SpeedStatus.notCalculated, total_speed_samples := 0 }
    let info :=
      match speed with
      | some _ =>
        { base with speed_status := SpeedStatus.calculating (sd plate).length t.min_speed_samples }
      | none => base
    ({ t with vehicle_counter := counter, speed_data := sd
              detected_plates := dictInsert t.detected_plates plate info },
      some (true, counter, info))

/-- Body of the `finalize_all_speeds` loop for one `(plate, info)` entry:
`none` is a propagated percentile fault (reachable only when
`min_speed_samples = 0`). -/
def finalize_info (minS : ℕ) (sd : String → List ℚ) (e : String × VehicleInfo) :
    Option (String × VehicleInfo) :=
  let step :=
    if e.2.final_speed = none then
      match get_final_speed minS (sd e.1) with
      | none => none
      | some (some f) =>
        some { e.2 with final_speed := some f, speed_status := SpeedStatus.finalized }
      | some none =>
        if 0 < (sd e.1).length then
          some { e.2 with final_speed := some (round1 (mean (sd e.1)))
                          speed_status := SpeedStatus.estimatedFrom (sd e.1).length }
        else some { e.2 with speed_status := SpeedStatus.noData }
    else some e.2
  step.map (fun i => (e.1, { i with total_speed_samples := (sd e.1).length }))

/-- Iterate `finalize_info` over the registry in insertion order.  The `Bool`
is `false` when a fault aborted the loop; entries before the fault keep their
updates, the faulting entry and the rest keep their old values. -/
def finalizeList (minS : ℕ) (sd : String → List ℚ) :
    List (String × VehicleInfo) → List (String × VehicleInfo) × Bool
  | [] => ([], true)
  | e :: rest =>
    match finalize_info minS sd e with
    | none => (e :: rest, false)
    | some e2 =>
      let r := finalizeList minS sd rest
      (e2 :: r.1, r.2)

/-- Model of `UniqueVehicleTracker.finalize_all_speeds`; the `Bool` records whether the
loop ran to completion without a fault. -/
def finalize_all_speeds (t : Tracker) : Tracker × Bool :=
  let r := finalizeList t.min_speed_samples t.speed_data t.detected_plates
  ({ t with detected_plates := r.1 }, r.2)

/-- One externally driven operation on a tracker instance. -/
inductive Op where
  | detect (plate : String) (bb : BBox) (frame : ℕ) (speed : Option ℚ) (now : ℚ) : Op
  | addSample (plate : String) (speed : Option ℚ) : Op
  | finalizeAll : Op

/-- Apply one operation to the tracker state. -/
def stepOp (t : Tracker) : Op → Tracker
  | Op.detect p bb f s now => (detect_vehicle t p bb f s now).1
  | Op.addSample p s => { t with speed_data := add_speed_sample t.speed_data p s }
  | Op.finalizeAll => (finalize_all_speeds t).1

/-- Run a sequence of operations from a given state. -/
def runOps (t : Tracker) (ops : List Op) : Tracker := ops.foldl stepOp t

/-- Per-vehicle rolling history held in `vehicle_tracks` (`advanced_speed.py`):
positions and timestamps are deques of capacity 10, raw speeds a deque of
capacity 5. -/
structure TrackData where
  positions : List (ℤ × ℤ)
  timestamps : List ℚ
  speeds : List ℚ
deriving DecidableEq

/-- Empty track history, the `defaultdict` default in `AdvancedSpeedCalculator`. -/
def initialTrack : TrackData := { positions := [], timestamps := [], speeds := [] }

/-- State of an `AdvancedSpeedCalculator` instance. -/
structure SpeedCalc where
  fps : ℚ
  meters_per_pixel : ℚ
  vehicle_tracks : String → TrackData
  prev_gray : Option ℕ

/-- Constructor state, `AdvancedSpeedCalculator.__init__` (with `reference_pixels` already
defaulted, as `reference_pixels or 300` does). -/
def mkSpeedCalc (fps refMeters refPixels : ℚ) : SpeedCalc :=
  { fps := fps
    meters_per_pixel := refMeters / refPixels
    vehicle_tracks := fun _ => initialTrack
    prev_gray := none }

/-- Point update of the `vehicle_tracks` dictionary. -/
def updateTrack (vt : String → TrackData) (k : String) (td : TrackData) : String → TrackData :=
  fun p => if p = k then td else vt p

/-- Model of `np.linspace(0.5, 1.0, n)`. -/
def linWeights (n : ℕ) : List ℚ :=
  if n ≤ 1 then List.replicate n (1/2)
  else (List.range n).map (fun i => 1/2 + (i : ℚ) * ((1/2) / ((n : ℚ) - 1)))

/-- Model of `np.average(vals, weights=linspace(0.5, 1.0, len(vals)))`. -/
def weightedAverage (vals : List ℚ) : ℚ :=
  (List.zipWith (· * ·) (linWeights vals.length) vals).sum / (linWeights vals.length).sum

/-- Model of `AdvancedSpeedCalculator.get_smoothed_speed`: weighted moving average of
the window entries in the plausible range `[0, 200]`, rounded to one
decimal; no estimate when the window has no valid entry. -/
def get_smoothed_speed (st : SpeedCalc) (vid : String) : Option ℚ :=
  let speeds := (st.vehicle_tracks vid).speeds
  if speeds.length = 0 then none
  else
    let valid := speeds.filter (fun s => decide (0 ≤ s) && decide (s ≤ 200))
    if valid.length = 0 then none else some (round1 (weightedAverage valid))

/-- Outcome of the cv2 collaborators for one optical-flow call:
whether `goodFeaturesToTrack` on the previous frame's region produced a
non-empty point set, how many points `calcOpticalFlowPyrLK` tracked with
status 1, and the mean Euclidean pixel displacement of those points. -/
structure FlowObs where
  featuresFound : Bool
  goodCount : ℕ
  displacement : ℚ

/-- Centre of a bounding region, `(x + w//2, y + h//2)` with Python floor
division. -/
def bboxCenter (bb : BBox) : ℤ × ℤ := (bb.x + Int.fdiv bb.w 2, bb.y + Int.fdiv bb.h 2)

/-- Model of `AdvancedSpeedCalculator.calculate_optical_flow_speed`.  When a previous
grayscale frame is cached, features were found in it and more than 5 tracked
points survive, the call converts the mean displacement to km/h, appends to
the track history and returns the smoothed speed WITHOUT touching
`prev_gray`; on every other path it stores the current grayscale into
`prev_gray`, appends only position/timestamp, and returns no estimate. -/
def calculate_optical_flow_speed (obs : FlowObs) (now : ℚ) (current_gray : ℕ)
    (st : SpeedCalc) (bb : BBox) (vid : String) : SpeedCalc × Option ℚ :=
  if st.prev_gray.isSome && obs.featuresFound && decide (5 < obs.goodCount) then
    let distance_meters := obs.displacement * st.meters_per_pixel
    let time_seconds : ℚ := 1 / st.fps
    let speed_mps := distance_meters / time_seconds
    let speed_kmph := speed_mps * (36/10)
    let td := st.vehicle_tracks vid
    let td2 : TrackData :=
      { positions := dqAppend 10 td.positions (bboxCenter bb)
        timestamps := dqAppend 10 td.timestamps now
        speeds := dqAppend 5 td.speeds speed_kmph }
    let st2 := { st with vehicle_tracks := updateTrack st.vehicle_tracks vid td2 }
    (st2, get_smoothed_speed st2 vid)
  else
    let td := st.vehicle_tracks vid
    let td2 : TrackData :=
      { td with positions := dqAppend 10 td.positions (bboxCenter bb)
                timestamps := dqAppend 10 td.timestamps now }
    ({ st with prev_gray := some current_gray
               vehicle_tracks := updateTrack st.vehicle_tracks vid td2 }, none)

/-- Model of `AdvancedSpeedCalculator.calculate_centroid_speed`, parametrised by the
square-root oracle `sq` used for the Euclidean distance of the last two
centres. -/
def calculate_centroid_speed (sq : ℚ → ℚ) (now : ℚ) (st : SpeedCalc) (bb : BBox)
    (vid : String) : SpeedCalc × Option ℚ :=
  let center := bboxCenter bb
  let td := st.vehicle_tracks vid
  let td1 : TrackData :=
    { td with positions := dqAppend 10 td.positions center
              timestamps := dqAppend 10 td.timestamps now }
  let st1 := { st with vehicle_tracks := updateTrack st.vehicle_tracks vid td1 }
  if 2 ≤ td1.positions.length then
    let pos1 := td1.positions.getD (td1.positions.length - 2) (0, 0)
    let pos2 := td1.positions.getD (td1.positions.length - 1) (0, 0)
    let time1 := td1.timestamps.getD (td1.timestamps.length - 2) 0
    let time2 := td1.timestamps.getD (td1.timestamps.length - 1) 0
    let pixel_distance := sq ((((pos2.1 - pos1.1)^2 + (pos2.2 - pos1.2)^2 : ℤ)) : ℚ)
    let time_diff := time2 - time1
    if 0 < time_diff then
      let distance_meters := pixel_distance * st.meters_per_pixel
      let speed_mps := distance_meters / time_diff
      let speed_kmph := speed_mps * (36/10)
      let td2 : TrackData := { td1 with speeds := dqAppend 5 td1.speeds speed_kmph }
      let st2 := { st with vehicle_tracks := updateTrack st.vehicle_tracks vid td2 }
      (st2, get_smoothed_speed st2 vid)
    else (st1, none)
  else (st1, none)

/-- Test `s is not None and 5 <= s <= 150` on an optional speed. -/
def speedInRange (o : Option ℚ) : Bool :=
  match o with
  | some v => decide (5 ≤ v) && decide (v ≤ 150)
  | none => false

/-- Model of `AdvancedSpeedCalculator.estimate_speed_hybrid`: run Method A (optical
flow), then Method B (centroid) on the resulting state, and select A's value
if present and within `[5, 150]`, else B's value if present and within
`[5, 150]`, else no estimate. -/
def estimate_speed_hybrid (sq : ℚ → ℚ) (obs : FlowObs) (nowA nowB : ℚ)
    (current_gray : ℕ) (st : SpeedCalc) (bb : BBox) (vid : String) :
    SpeedCalc × Option ℚ :=
  let r1 := calculate_optical_flow_speed obs nowA current_gray st bb vid
  let r2 := calculate_centroid_speed sq nowB r1.1 bb vid
  (r2.1, if speedInRange r1.2 then r1.2 else if speedInRange r2.2 then r2.2 else none)

/-- Similarity as §4.2 of the specification words it, as a total function:
`(count of matching same-position characters) / length` for equal-length
tokens, `0` for tokens of different length.  (For two empty tokens the
formula is 0/0, which is `0` under Lean's convention; the code faults
there instead, see the claim theorems.) -/
def specSim (a b : String) : ℚ :=
  if a.length = b.length then (countMatches a.data b.data : ℚ) / (a.length : ℚ) else 0

/-- Resolution as the specification words it: the first registered token
whose similarity reaches the threshold. -/
def specResolve (thr : ℚ) (token : String) (reg : List String) : Option String :=
  reg.find? (fun r => decide (thr ≤ specSim token r))

/-! ## Claim C1: the previous-frame cache -/

/-- Concrete flow observation for the C1 counterexample: features found and 6
surviving tracked points with mean displacement 1 pixel. -/
def obsC1 : FlowObs := { featuresFound := true, goodCount := 6, displacement := 1 }

/-- Concrete estimator state for the C1 counterexample: default calibration
(fps 30, 50 m over 300 px) with grayscale frame `0` cached. -/
def stC1 : SpeedCalc := { mkSpeedCalc 30 50 300 with prev_gray := some 0 }

/-- Concrete bounding region used by several counterexamples. -/
def bbC1 : BBox := { x := 0, y := 0, w := 10, h := 10 }

/-- C1 counterexample: a call to `calculate_optical_flow_speed` that DOES
produce a speed estimate (18 km/h here) returns with the previous-frame
cache still holding the old grayscale `0`, not the current grayscale `1` —
refuting the claim that the cache is overwritten with the current frame's
grayscale before every call returns. -/
theorem C1_counterexample :
    (calculate_optical_flow_speed obsC1 0 1 stC1 bbC1 "v").2 = some 18 ∧
    (calculate_optical_flow_speed obsC1 0 1 stC1 bbC1 "v").1.prev_gray = some 0 ∧
    (calculate_optical_flow_speed obsC1 0 1 stC1 bbC1 "v").1.prev_gray ≠ some 1 := by
  norm_num [calculate_optical_flow_speed, get_smoothed_speed, weightedAverage, linWeights,
    round1, roundHalfEven, dqAppend, updateTrack, mkSpeedCalc, obsC1, stC1, bbC1,
    List.filter, initialTrack]

/-- C1 (amended): the previous-frame cache is overwritten with the grayscale
of the current frame exactly when the call does not take the successful
optical-flow path (cached previous frame present, features found, more than
5 surviving points); on the successful path — whether or not the smoothing
window yields an estimate — the cache is left unchanged. -/
theorem C1_prev_gray_update (obs : FlowObs) (now : ℚ) (cg : ℕ) (st : SpeedCalc)
    (bb : BBox) (vid : String) :
    (calculate_optical_flow_speed obs now cg st bb vid).1.prev_gray =
      if st.prev_gray.isSome && obs.featuresFound && decide (5 < obs.goodCount)
      then st.prev_gray else some cg := by
  simp only [calculate_optical_flow_speed]
  split <;> rfl

/-! ## Claim C3: hybrid selection policy -/

/-- C3: the hybrid estimator returns Method A's (optical-flow) smoothed result
when it is present and within [5, 150] km/h; otherwise Method B's (centroid)
smoothed result when that is present and within [5, 150]; otherwise no
estimate. -/
theorem C3_hybrid_selection (sq : ℚ → ℚ) (obs : FlowObs) (nowA nowB : ℚ) (cg : ℕ)
    (st : SpeedCalc) (bb : BBox) (vid : String) :
    let a := (calculate_optical_flow_speed obs nowA cg st bb vid).2
    let b := (calculate_centroid_speed sq nowB
                (calculate_optical_flow_speed obs nowA cg st bb vid).1 bb vid).2
    let r := (estimate_speed_hybrid sq obs nowA nowB cg st bb vid).2
    (∀ v : ℚ, r = some v ↔
        ((a = some v ∧ 5 ≤ v ∧ v ≤ 150) ∨
         ((∀ u, a = some u → ¬(5 ≤ u ∧ u ≤ 150)) ∧ b = some v ∧ 5 ≤ v ∧ v ≤ 150)))
    ∧ (r = none ↔
        ((∀ u, a = some u → ¬(5 ≤ u ∧ u ≤ 150)) ∧
         (∀ u, b = some u → ¬(5 ≤ u ∧ u ≤ 150)))) := by
  intro a b r
  have hr : r = if speedInRange a then a else if speedInRange b then b else none := rfl
  have hin : ∀ o : Option ℚ, speedInRange o = true → ∃ v, o = some v ∧ 5 ≤ v ∧ v ≤ 150 := by
    intro o ho
    cases o with
    | none => simp [speedInRange] at ho
    | some v =>
      have ho' : 5 ≤ v ∧ v ≤ 150 := by
        simpa [speedInRange, Bool.and_eq_true, decide_eq_true_eq] using ho
      exact ⟨v, rfl, ho'.1, ho'.2⟩
  have hni : ∀ o : Option ℚ, speedInRange o = false → ∀ u, o = some u → ¬(5 ≤ u ∧ u ≤ 150) := by
    intro o ho u hu hcon
    subst hu
    simp [speedInRange, hcon.1, hcon.2] at ho
  by_cases hA : speedInRange a = true
  · rw [if_pos hA] at hr
    obtain ⟨av, hav, hav1, hav2⟩ := hin a hA
    constructor
    · intro v
      constructor
      · intro hv
        rw [hr] at hv
        have hvav : v = av := by rw [hav] at hv; exact (Option.some.injEq _ _ ▸ hv).symm
        subst hvav
        exact Or.inl ⟨hv, hav1, hav2⟩
      · rintro (⟨h1, _, _⟩ | ⟨hnone, _, _, _⟩)
        · rw [hr]; exact h1
        · exact ((hnone av hav) ⟨hav1, hav2⟩).elim
    · constructor
      · intro h0
        rw [hr, hav] at h0
        exact Option.noConfusion h0
      · rintro ⟨hnone, _⟩
        exact ((hnone av hav) ⟨hav1, hav2⟩).elim
  · have hA' : speedInRange a = false := Bool.eq_false_iff.mpr hA
    have hAn := hni a hA'
    rw [if_neg hA] at hr
    by_cases hB : speedInRange b = true
    · rw [if_pos hB] at hr
      obtain ⟨bv, hbv, hbv1, hbv2⟩ := hin b hB
      constructor
      · intro v
        constructor
        · intro hv
          rw [hr] at hv
          have hvbv : v = bv := by rw [hbv] at hv; exact (Option.some.injEq _ _ ▸ hv).symm
          subst hvbv
          exact Or.inr ⟨hAn, hv, hbv1, hbv2⟩
        · rintro (⟨h1, h2, h3⟩ | ⟨_, hb', _, _⟩)
          · exact ((hAn v h1) ⟨h2, h3⟩).elim
          · rw [hr]; exact hb'
      · constructor
        · intro h0
          rw [hr, hbv] at h0
          exact Option.noConfusion h0
        · rintro ⟨_, hBn⟩
          exact ((hBn bv hbv) ⟨hbv1, hbv2⟩).elim
    · have hB' : speedInRange b = false := Bool.eq_false_iff.mpr hB
      have hBn := hni b hB'
      rw [if_neg hB] at hr
      constructor
      · intro v
        constructor
        · intro hv
          rw [hr] at hv
          exact Option.noConfusion hv
        · rintro (⟨h1, h2, h3⟩ | ⟨_, hb', h2', h3'⟩)
          · exact ((hAn v h1) ⟨h2, h3⟩).elim
          · exact ((hBn v hb') ⟨h2', h3'⟩).elim
      · exact ⟨fun _ => ⟨hAn, hBn⟩, fun _ => hr⟩

/-! ## Claims C2 and C4: similarity and resolution -/

/-- A string of length zero is the empty string. -/
theorem string_eq_empty_of_length {s : String} (h : s.length = 0) : s = "" := by
  cases s with
  | mk d =>
    cases d with
    | nil => rfl
    | cons c cs => simp [String.length] at h

/-- Unless both tokens are empty, `calculate_similarity` returns a value, and
that value is the specification's similarity formula. -/
theorem calculate_similarity_eq_spec (p q : String) (h : p ≠ "" ∨ q ≠ "") :
    calculate_similarity p q = some (specSim p q) := by
  unfold calculate_similarity specSim
  by_cases hl : p.length = q.length
  · have hp : p.length ≠ 0 := by
      intro h0
      have hq0 : q.length = 0 := by omega
      rcases h with h | h
      · exact h (string_eq_empty_of_length h0)
      · exact h (string_eq_empty_of_length hq0)
    have hq : q.length ≠ 0 := by rw [← hl]; exact hp
    simp [hl, hp, hq]
  · simp [hl]

/-- C2 counterexample: comparing two empty tokens raises `ZeroDivisionError`
(the modelled `none`), and `detect_vehicle` on an empty token with a fresh
registry registers a brand-new `VehicleRecord` for it — refuting both the
fault-freeness and the never-registrable halves of the claim. -/
theorem C2_counterexample :
    calculate_similarity "" "" = none ∧
    (detect_vehicle (initTracker (4/5) 3) "" bbC1 1 none 0).2 =
      some (true, 1,
        { vehicle_id := 1, plate_number := "", first_detected_frame := 1, detection_time := 0
          bbox := bbC1, final_speed := none, speed_status := SpeedStatus.notCalculated
          total_speed_samples := 0 }) ∧
    (detect_vehicle (initTracker (4/5) 3) "" bbC1 1 none 0).1.detected_plates =
      [("", { vehicle_id := 1, plate_number := "", first_detected_frame := 1, detection_time := 0
              bbox := bbC1, final_speed := none, speed_status := SpeedStatus.notCalculated
              total_speed_samples := 0 })] := by
  refine ⟨rfl, ?_, ?_⟩ <;>
    simp [detect_vehicle, is_similar_plate, initTracker, dictInsert, add_speed_sample]

/-- Scanning registered tokens that are all nonempty with an empty probe token
and a positive threshold matches nothing (every comparison scores 0). -/
theorem is_similar_plate_empty_token (thr : ℚ) (keys : List String)
    (hthr : 0 < thr) (hk : ∀ k ∈ keys, k ≠ "") :
    is_similar_plate thr "" keys = some none := by
  induction keys with
  | nil => rfl
  | cons k rest ih =>
    have hkne : k ≠ "" := hk k (List.mem_cons_self k rest)
    have hk0 : (0 : ℕ) ≠ k.length := by
      intro hc
      exact hkne (string_eq_empty_of_length hc.symm)
    have hsim : calculate_similarity "" k = some 0 := by
      unfold calculate_similarity
      simp [hk0]
    have hnotle : ¬ thr ≤ (0 : ℚ) := not_le.mpr hthr
    simp only [is_similar_plate, hsim, if_neg hnotle]
    exact ih (fun x hx => hk x (List.mem_cons_of_mem _ hx))

/-- C2 (amended): the similarity computation returns a value for every pair of
tokens EXCEPT two empty ones (where the source raises `ZeroDivisionError`),
and — with a positive threshold — an empty token never matches a registry of
nonempty tokens but IS registered: `detect_vehicle` reports a new detection
with the next id and appends a record keyed by the empty token. -/
theorem C2_empty_token_amended :
    (∀ p q : String, p ≠ "" ∨ q ≠ "" → ∃ v, calculate_similarity p q = some v) ∧
    (∀ (t : Tracker) (bb : BBox) (frame : ℕ) (speed : Option ℚ) (now : ℚ),
      0 < t.similarity_threshold →
      (∀ k ∈ t.detected_plates.map Prod.fst, k ≠ "") →
      (detect_vehicle t "" bb frame speed now).2.map (fun x => (x.1, x.2.1)) =
          some (true, t.vehicle_counter + 1) ∧
      (detect_vehicle t "" bb frame speed now).1.vehicle_counter = t.vehicle_counter + 1 ∧
      (detect_vehicle t "" bb frame speed now).1.detected_plates.length =
          t.detected_plates.length + 1) := by
  constructor
  · intro p q h
    exact ⟨specSim p q, calculate_similarity_eq_spec p q h⟩
  · intro t bb frame speed now hthr hk
    have hsim := is_similar_plate_empty_token t.similarity_threshold
      (t.detected_plates.map Prod.fst) hthr hk
    have hnotkey : t.detected_plates.any (fun e => e.1 == "") = false := by
      rw [List.any_eq_false]
      intro e he
      have := hk e.1 (List.mem_map_of_mem Prod.fst he)
      simpa using this
    cases speed with
    | none =>
      refine ⟨?_, ?_, ?_⟩ <;>
        simp [detect_vehicle, hsim, dictInsert, hnotkey, add_speed_sample]
    | some s =>
      refine ⟨?_, ?_, ?_⟩ <;>
        simp [detect_vehicle, hsim, dictInsert, hnotkey, add_speed_sample]

/-- Witness for the amended C2 at concrete inputs: one nonempty pair for the
similarity half, and an empty-token detection on a fresh registry with the
default threshold for the registration half. -/
theorem C2_empty_token_amended_witness :
    (∃ v, calculate_similarity "AB" "CDE" = some v) ∧
    (detect_vehicle (initTracker (4/5) 3) "" bbC1 1 none 0).1.vehicle_counter = 1 := by
  constructor
  · exact C2_empty_token_amended.1 "AB" "CDE" (Or.inl (by decide))
  · exact (C2_empty_token_amended.2 (initTracker (4/5) 3) bbC1 1 none 0
      (by norm_num [initTracker]) (by simp [initTracker])).2.1

/-- C4 counterexample: resolving the empty token against a registry whose
first entry is the empty token raises `ZeroDivisionError` (the modelled outer
`none`) instead of returning a first-match-or-none result as the claim
states for every token and registry state. -/
theorem C4_counterexample : is_similar_plate (4/5) "" [""] = none := rfl

/-- C4 (amended): provided the probe token and a registered token are not both
empty (where the source faults, see the counterexample), resolution returns
exactly the specification's result — the first registered token in insertion
order whose similarity (matching positions / length for equal lengths, 0
otherwise) reaches the threshold, and `none` when no token qualifies;
moreover observing "DL01AB1234" and then "DL01AB1239" at threshold 0.8
resolves the second observation to the same vehicle with
`is_new_detection = false`. -/
theorem C4_resolution (thr : ℚ) (token : String) (reg : List String)
    (h : ¬(token = "" ∧ "" ∈ reg)) :
    is_similar_plate thr token reg = some (specResolve thr token reg) ∧
    (detect_vehicle
        (detect_vehicle (initTracker (4/5) 3) "DL01AB1234" bbC1 1 none 0).1
        "DL01AB1239" bbC1 2 none 0).2.map (fun x => (x.1, x.2.1)) =
      some (false, 1) := by
  constructor
  · induction reg with
    | nil => simp [is_similar_plate, specResolve]
    | cons q rest ih =>
      have hpq : token ≠ "" ∨ q ≠ "" := by
        by_cases ht : token = ""
        · right
          intro hq
          exact h ⟨ht, by rw [← hq]; exact List.mem_cons_self q rest⟩
        · left; exact ht
      have hsim := calculate_similarity_eq_spec token q hpq
      by_cases hle : thr ≤ specSim token q
      · have hfind : List.find? (fun r => decide (thr ≤ specSim token r)) (q :: rest) =
            some q := List.find?_cons_of_pos rest (by simpa using hle)
        simp only [is_similar_plate, hsim, if_pos hle, specResolve, hfind]
      · have hrec := ih (fun hc => h ⟨hc.1, List.mem_cons_of_mem _ hc.2⟩)
        simp only [is_similar_plate, hsim, if_neg hle, specResolve] at hrec ⊢
        rw [List.find?_cons_of_neg _ (by simpa using hle)]
        exact hrec
  · have hcm : countMatches "DL01AB1239".data "DL01AB1234".data = 9 := by decide
    have hlen : ("DL01AB1239" : String).length = 10 := by decide
    have hleq : ("DL01AB1239" : String).length = ("DL01AB1234" : String).length := by decide
    have hsim2 : calculate_similarity "DL01AB1239" "DL01AB1234" = some (9/10) := by
      unfold calculate_similarity
      rw [if_neg (by simp [hleq]), if_neg (by simp [hlen]), hcm, hlen]
      norm_num
    have ht1 : (detect_vehicle (initTracker (4/5) 3) "DL01AB1234" bbC1 1 none 0).1 =
        { similarity_threshold := 4/5, min_speed_samples := 3
          detected_plates := [("DL01AB1234",
            { vehicle_id := 1, plate_number := "DL01AB1234", first_detected_frame := 1
              detection_time := 0, bbox := bbC1, final_speed := none
              speed_status := SpeedStatus.notCalculated, total_speed_samples := 0 })]
          vehicle_counter := 1, speed_data := fun _ => [] } := rfl
    have hsp : is_similar_plate (4/5) "DL01AB1239" ["DL01AB1234"] =
        some (some "DL01AB1234") := by
      simp only [is_similar_plate, hsim2]
      rw [if_pos (by norm_num)]
    rw [ht1]
    simp [detect_vehicle, hsp, lookupInfo]

/-- Witness for C4 at concrete inputs: a nonempty token against a one-entry
registry. -/
theorem C4_resolution_witness :
    is_similar_plate (4/5) "DL01AB1234" ["MH12CD5678"] =
      some (specResolve (4/5) "DL01AB1234" ["MH12CD5678"]) := by
  exact (C4_resolution (4/5) "DL01AB1234" ["MH12CD5678"] (by simp)).1

/-! ## Percentile and fence machinery (claims C7, C8, C10) -/

/-- Monotonicity of `getD`-indexing on a sorted list. -/
theorem getD_mono (l : List ℚ) (hs : l.Sorted (· ≤ ·)) {i j : ℕ} (hij : i ≤ j)
    (hj : j < l.length) : l.getD i 0 ≤ l.getD j 0 := by
  have hi : i < l.length := lt_of_le_of_lt hij hj
  rw [List.getD_eq_getElem l 0 hi, List.getD_eq_getElem l 0 hj]
  have hfin : (⟨i, hi⟩ : Fin l.length) ≤ ⟨j, hj⟩ := hij
  have := hs.rel_get_of_le hfin
  simpa [List.get_eq_getElem] using this

/-- Bracketing of the linear-interpolation percentile on a sorted list: the
virtual index `h = (n-1)p/100` has a floor `i` below `n`, and the percentile
lies between the order statistics at `i` and `i+1`. -/
theorem percentile_bracket (l : List ℚ) (hs : l.Sorted (· ≤ ·)) (p : ℚ) (hp0 : 0 ≤ p)
    (hn : 0 < l.length) (hple : ((l.length : ℚ) - 1) * p / 100 ≤ (l.length : ℚ) - 1) :
    ∃ i : ℕ, (i : ℚ) ≤ ((l.length : ℚ) - 1) * p / 100
      ∧ ((l.length : ℚ) - 1) * p / 100 < (i : ℚ) + 1
      ∧ i < l.length
      ∧ l.getD i 0 ≤ percentileSorted l p
      ∧ (i + 1 < l.length → percentileSorted l p ≤ l.getD (i + 1) 0)
      ∧ (i : ℤ) = ⌊((l.length : ℚ) - 1) * p / 100⌋ := by
  set h : ℚ := ((l.length : ℚ) - 1) * p / 100 with hh
  have hn1 : (1 : ℚ) ≤ (l.length : ℚ) := by exact_mod_cast hn
  have hh0 : 0 ≤ h := by
    rw [hh]
    apply div_nonneg (mul_nonneg (by linarith) hp0) (by norm_num)
  have hfl0 : 0 ≤ ⌊h⌋ := Int.floor_nonneg.mpr hh0
  set i : ℕ := (⌊h⌋).toNat with hidf
  have hiz : (i : ℤ) = ⌊h⌋ := Int.toNat_of_nonneg hfl0
  have hle : (i : ℚ) ≤ h := by
    have h1 := Int.floor_le h
    rw [← hiz] at h1
    exact_mod_cast h1
  have hlt : h < (i : ℚ) + 1 := by
    have h1 := Int.lt_floor_add_one h
    rw [← hiz] at h1
    exact_mod_cast h1
  have hi_lt : i < l.length := by
    have h1 : (i : ℚ) < (l.length : ℚ) := by linarith
    exact_mod_cast h1
  have hps : percentileSorted l p =
      l.getD i 0 + (h - (i : ℚ)) * (l.getD (i + 1) 0 - l.getD i 0) := rfl
  have g0 : 0 ≤ h - (i : ℚ) := by linarith
  have g1 : h - (i : ℚ) ≤ 1 := by linarith
  refine ⟨i, hle, hlt, hi_lt, ?_, ?_, hiz⟩
  · rw [hps]
    rcases lt_or_ge (i + 1) l.length with hlt2 | hge
    · have hmono := getD_mono l hs (Nat.le_succ i) hlt2
      nlinarith [mul_nonneg g0 (sub_nonneg.mpr hmono)]
    · have h3 : (l.length : ℚ) ≤ (i : ℚ) + 1 := by exact_mod_cast hge
      have hieq : h - (i : ℚ) = 0 := by linarith
      rw [hieq, zero_mul, add_zero]
  · intro hlt2
    rw [hps]
    have hmono := getD_mono l hs (Nat.le_succ i) hlt2
    nlinarith [mul_nonneg (by linarith : (0:ℚ) ≤ 1 - (h - (i : ℚ)))
      (sub_nonneg.mpr hmono)]

/-- On a sorted nonempty list, at least one element lies within the Tukey
fences computed from the interpolated quartiles. -/
theorem exists_mem_fence (l : List ℚ) (hs : l.Sorted (· ≤ ·)) (hn : 0 < l.length) :
    ∃ x ∈ l, fenceLower l ≤ x ∧ x ≤ fenceUpper l := by
  match l, hs, hn with
  | [a], _, _ =>
    refine ⟨a, by simp, ?_, ?_⟩ <;>
      norm_num [fenceLower, fenceUpper, percentileSorted]
  | [a, b], hs2, _ =>
    have hab : a ≤ b := by
      have := List.sorted_cons.mp hs2
      exact this.1 b (by simp)
    have hfl : ⌊(1 : ℚ) / 4⌋ = 0 := by norm_num [Int.floor_eq_iff]
    have hfu : ⌊(3 : ℚ) / 4⌋ = 0 := by norm_num [Int.floor_eq_iff]
    have e25 : percentileSorted [a, b] 25 = a + 1/4 * (b - a) := by
      have : ((([a, b] : List ℚ).length : ℚ) - 1) * 25 / 100 = 1/4 := by norm_num
      rw [percentileSorted]
      rw [show (([a, b] : List ℚ).length : ℚ) = 2 by norm_num]
      norm_num [hfl]
    have e75 : percentileSorted [a, b] 75 = a + 3/4 * (b - a) := by
      rw [percentileSorted]
      rw [show (([a, b] : List ℚ).length : ℚ) = 2 by norm_num]
      norm_num [hfu]
    refine ⟨a, by simp, ?_, ?_⟩ <;>
      simp only [fenceLower, fenceUpper, e25, e75] <;> linarith
  | (a :: b :: c :: l3), hs3, _ =>
    set L : List ℚ := a :: b :: c :: l3 with hL
    have hlen : 3 ≤ L.length := by simp [hL]
    have hlenQ : (3 : ℚ) ≤ (L.length : ℚ) := by exact_mod_cast hlen
    have hnpos : 0 < L.length := by omega
    have hple25 : ((L.length : ℚ) - 1) * 25 / 100 ≤ (L.length : ℚ) - 1 := by nlinarith
    have hple75 : ((L.length : ℚ) - 1) * 75 / 100 ≤ (L.length : ℚ) - 1 := by nlinarith
    obtain ⟨i1, h1le, h1lt, h1n, h1lo, h1hi, h1z⟩ :=
      percentile_bracket L hs3 25 (by norm_num) hnpos hple25
    obtain ⟨i3, h3le, h3lt, h3n, h3lo, h3hi, h3z⟩ :=
      percentile_bracket L hs3 75 (by norm_num) hnpos hple75
    have hi13 : i1 + 1 ≤ i3 := by
      have hq : ((i1 : ℚ) + 1) ≤ ((L.length : ℚ) - 1) * 75 / 100 := by nlinarith
      have hz : ((i1 : ℤ) + 1) ≤ ⌊((L.length : ℚ) - 1) * 75 / 100⌋ := by
        rw [Int.le_floor]
        exact_mod_cast hq
      rw [← h3z] at hz
      exact_mod_cast hz
    have hi3lt : i3 + 1 < L.length := by
      have hq : (i3 : ℚ) < (L.length : ℚ) - 1 := by nlinarith
      have : (i3 : ℕ) + 1 < L.length := by
        have : (i3 : ℚ) + 1 < (L.length : ℚ) := by linarith
        exact_mod_cast this
      exact this
    have hi1lt : i1 + 1 < L.length := lt_of_le_of_lt (by omega) hi3lt
    have hq25B : percentileSorted L 25 ≤ L.getD (i1 + 1) 0 := h1hi hi1lt
    have hBC : L.getD (i1 + 1) 0 ≤ L.getD i3 0 := getD_mono L hs3 hi13 (by omega)
    have hCq75 : L.getD i3 0 ≤ percentileSorted L 75 := h3lo
    refine ⟨L.getD (i1 + 1) 0, ?_, ?_, ?_⟩
    · rw [List.getD_eq_getElem L 0 hi1lt]
      exact List.getElem_mem hi1lt
    · rw [fenceLower]
      have : percentileSorted L 25 ≤ percentileSorted L 75 := by linarith
      linarith
    · rw [fenceUpper]
      have : percentileSorted L 25 ≤ percentileSorted L 75 := by linarith
      linarith

/-- The fenced subset of a nonempty sample list is nonempty. -/
theorem fencedSamples_pos (speeds : List ℚ) (hne : speeds ≠ []) :
    0 < (fencedSamples speeds).length := by
  set sorted := speeds.insertionSort (· ≤ ·) with hsorted
  have hperm : List.Perm sorted speeds := List.perm_insertionSort _ speeds
  have hsort : sorted.Sorted (· ≤ ·) := List.sorted_insertionSort _ speeds
  have hlen : 0 < sorted.length := by
    rw [hperm.length_eq]
    exact List.length_pos.mpr hne
  obtain ⟨x, hx, hlo, hhi⟩ := exists_mem_fence sorted hsort hlen
  have hxs : x ∈ speeds := hperm.mem_iff.mp hx
  have hmem : x ∈ fencedSamples speeds := by
    rw [fencedSamples]
    exact List.mem_filter.mpr ⟨hxs, by simp [hlo, hhi]⟩
  exact List.length_pos.mpr (List.ne_nil_of_mem hmem)

/-- With at least one sample and enough samples, `get_final_speed` takes the
value branch and returns the rounded mean of the fenced subset. -/
theorem get_final_speed_eq_mean (minS : ℕ) (speeds : List ℚ) (h1 : minS ≤ speeds.length)
    (hne : speeds ≠ []) :
    get_final_speed minS speeds = some (some (round1 (mean (fencedSamples speeds)))) := by
  rw [get_final_speed, if_pos h1, if_neg (by simp [hne]),
    if_pos (fencedSamples_pos speeds hne)]

/-- C10: for every sample list of in-range samples whose length reaches the
(positive) configured minimum, the subset within the IQR fences is non-empty,
so `get_final_speed` always returns a value — the branch guarded by an empty
fenced subset is unreachable.  (`min_speed_samples` is positive in every
configuration of this repository; with minimum 0 and no samples the source
faults in `np.percentile` before reaching that branch.) -/
theorem C10_fenced_nonempty (minS : ℕ) (speeds : List ℚ) (hmin : 1 ≤ minS)
    (hlen : minS ≤ speeds.length) (hrange : ∀ s ∈ speeds, 5 ≤ s ∧ s ≤ 150) :
    0 < (fencedSamples speeds).length ∧
      ∃ v, get_final_speed minS speeds = some (some v) := by
  have hne : speeds ≠ [] := by
    intro hc
    rw [hc] at hlen
    simp at hlen
    omega
  exact ⟨fencedSamples_pos speeds hne,
    round1 (mean (fencedSamples speeds)), get_final_speed_eq_mean minS speeds hlen hne⟩

/-- Witness for C10 at the concrete configuration of the repository
(`min_speed_samples = 3`) and three in-range samples. -/
theorem C10_fenced_nonempty_witness :
    0 < (fencedSamples [40, 42, 41]).length ∧
      ∃ v, get_final_speed 3 [40, 42, 41] = some (some v) := by
  exact C10_fenced_nonempty 3 [40, 42, 41] (by decide) (by decide) (by decide)

/-- Concrete finalization of the samples 40, 42, 41 under minimum 3:
quartiles 40.5 / 41.5, fences [39, 43], all three samples kept, mean 41. -/
theorem get_final_speed_scenario : get_final_speed 3 [40, 42, 41] = some (some 41) := by
  have hsort : List.insertionSort (· ≤ ·) [(40 : ℚ), 42, 41] = [40, 41, 42] := by
    norm_num [List.insertionSort, List.orderedInsert]
  have hfl0 : ⌊(1 : ℚ) / 2⌋ = 0 := by norm_num [Int.floor_eq_iff]
  have hfl1 : ⌊(3 : ℚ) / 2⌋ = 1 := by norm_num [Int.floor_eq_iff]
  have h25 : percentileSorted [40, 41, 42] 25 = 81/2 := by
    rw [percentileSorted]
    rw [show ((([40, 41, 42] : List ℚ).length : ℚ) - 1) * 25 / 100 = 1/2 by norm_num]
    norm_num [hfl0]
  have h75 : percentileSorted [40, 41, 42] 75 = 83/2 := by
    rw [percentileSorted]
    rw [show ((([40, 41, 42] : List ℚ).length : ℚ) - 1) * 75 / 100 = 3/2 by norm_num]
    norm_num [hfl1]
  have hlo : fenceLower [40, 41, 42] = 39 := by
    simp only [fenceLower, h25, h75]
    norm_num
  have hhi : fenceUpper [40, 41, 42] = 43 := by
    simp only [fenceUpper, h25, h75]
    norm_num
  have hfs : fencedSamples [40, 42, 41] = [40, 42, 41] := by
    simp only [fencedSamples, hsort, hlo, hhi]
    norm_num [List.filter]
  rw [get_final_speed, if_pos (by decide), if_neg (by decide)]
  rw [if_pos (by rw [hfs]; decide)]
  rw [hfs]
  norm_num [mean, round1, roundHalfEven]

/-- C7: when a record has at least `min_speed_samples` samples (the minimum
being positive, as configured throughout this repository), finalization
computes the linear-interpolation quartiles, the fences
`[Q1 - 1.5*IQR, Q3 + 1.5*IQR]`, and returns the mean of in-fence samples
rounded to one decimal; and observing "DL01AB1234" three times with valid
samples 40.0, 42.0, 41.0 under `min_speed_samples = 3` ends with status
`Finalized` and final speed 41.0. -/
theorem C7_final_speed (minS : ℕ) (speeds : List ℚ) (hmin : 1 ≤ minS)
    (hlen : minS ≤ speeds.length) :
    get_final_speed minS speeds = some (some (round1 (mean (fencedSamples speeds)))) ∧
    ((detect_vehicle
        (runOps (initTracker (4/5) 3)
          [Op.detect "DL01AB1234" bbC1 1 (some 40) 0,
           Op.detect "DL01AB1234" bbC1 2 (some 42) 0])
        "DL01AB1234" bbC1 3 (some 41) 0).2.map
      (fun x => (x.1, x.2.2.final_speed, x.2.2.speed_status))) =
      some (false, some 41, SpeedStatus.finalized) := by
  constructor
  · have hne : speeds ≠ [] := by
      intro hc
      rw [hc] at hlen
      simp at hlen
      omega
    exact get_final_speed_eq_mean minS speeds hlen hne
  · set P : String := "DL01AB1234" with hP
    have hPlen : P.length = 10 := by decide
    have hsimPP : calculate_similarity P P = some 1 := by
      unfold calculate_similarity
      rw [if_neg (by simp), if_neg (by rw [hPlen]; decide)]
      rw [show countMatches P.data P.data = 10 from by decide, hPlen]
      norm_num
    have hsp1 : is_similar_plate (4/5) P [P] = some (some P) := by
      simp only [is_similar_plate, hsimPP]
      rw [if_pos (by norm_num)]
    set t1 := (detect_vehicle (initTracker (4/5) 3) P bbC1 1 (some 40) 0).1 with ht1def
    have h1p : t1.detected_plates =
        [(P, { vehicle_id := 1, plate_number := P, first_detected_frame := 1
               detection_time := 0, bbox := bbC1, final_speed := none
               speed_status := SpeedStatus.calculating 1 3, total_speed_samples := 0 })] := by
      rw [ht1def]
      norm_num [detect_vehicle, is_similar_plate, initTracker, add_speed_sample, dictInsert]
    have h1thr : t1.similarity_threshold = 4/5 := by
      rw [ht1def]
      norm_num [detect_vehicle, is_similar_plate, initTracker, add_speed_sample]
    have h1min : t1.min_speed_samples = 3 := by
      rw [ht1def]
      norm_num [detect_vehicle, is_similar_plate, initTracker, add_speed_sample]
    have h1s : t1.speed_data P = [40] := by
      rw [ht1def]
      norm_num [detect_vehicle, is_similar_plate, initTracker, add_speed_sample]
    set t2 := (detect_vehicle t1 P bbC1 2 (some 42) 0).1 with ht2def
    have h2scrut : is_similar_plate t1.similarity_threshold P
        (t1.detected_plates.map Prod.fst) = some (some P) := by
      rw [h1thr, h1p]
      simpa using hsp1
    have h2sd : add_speed_sample t1.speed_data P (some 42) P = [40, 42] := by
      unfold add_speed_sample
      norm_num [h1s]
    have h2gfs : get_final_speed t1.min_speed_samples
        (add_speed_sample t1.speed_data P (some 42) P) = some none := by
      rw [h2sd, h1min]
      simp [get_final_speed]
    have h2p : t2.detected_plates =
        [(P, { vehicle_id := 1, plate_number := P, first_detected_frame := 1
               detection_time := 0, bbox := bbC1, final_speed := none
               speed_status := SpeedStatus.calculating 2 3, total_speed_samples := 0 })] := by
      rw [ht2def]
      simp only [detect_vehicle, h2scrut, h2gfs]
      simp [lookupInfo, h1p, dictInsert, h2sd, h1min]
    have h2thr : t2.similarity_threshold = 4/5 := by
      rw [ht2def]
      simp only [detect_vehicle, h2scrut, h2gfs]
      simpa using h1thr
    have h2min : t2.min_speed_samples = 3 := by
      rw [ht2def]
      simp only [detect_vehicle, h2scrut, h2gfs]
      simpa using h1min
    have h2s : t2.speed_data P = [40, 42] := by
      rw [ht2def]
      simp only [detect_vehicle, h2scrut, h2gfs]
      simpa using h2sd
    have hrun : runOps (initTracker (4/5) 3)
        [Op.detect P bbC1 1 (some 40) 0, Op.detect P bbC1 2 (some 42) 0] = t2 := rfl
    rw [hrun]
    have h3scrut : is_similar_plate t2.similarity_threshold P
        (t2.detected_plates.map Prod.fst) = some (some P) := by
      rw [h2thr, h2p]
      simpa using hsp1
    have h3sd : add_speed_sample t2.speed_data P (some 41) P = [40, 42, 41] := by
      unfold add_speed_sample
      norm_num [h2s]
    have h3gfs : get_final_speed t2.min_speed_samples
        (add_speed_sample t2.speed_data P (some 41) P) = some (some 41) := by
      rw [h3sd, h2min, get_final_speed_scenario]
    simp only [detect_vehicle, h3scrut, h3gfs]
    simp [lookupInfo, h2p]

/-- Witness for C7 at the repository configuration and the scenario samples. -/
theorem C7_final_speed_witness :
    get_final_speed 3 [40, 42, 41] =
      some (some (round1 (mean (fencedSamples [40, 42, 41])))) := by
  exact (C7_final_speed 3 [40, 42, 41] (by decide) (by decide)).1

/-! ## Structural lemmas about the tracker operations (claims C5, C6, C8, C9) -/

/-- A token matches itself in every position. -/
theorem countMatches_self (a : List Char) : countMatches a a = a.length := by
  induction a with
  | nil => rfl
  | cons x xs ih =>
    have hstep : countMatches (x :: xs) (x :: xs) = countMatches xs xs + 1 := by
      unfold countMatches
      rw [List.zip_cons_cons, List.filter_cons]
      simp
    rw [hstep, ih]
    simp

/-- Similarity of a nonempty token with itself is 1. -/
theorem calculate_similarity_self (p : String) (h : p ≠ "") :
    calculate_similarity p p = some 1 := by
  have hlen : p.length ≠ 0 := fun hc => h (string_eq_empty_of_length hc)
  have hcast : (p.length : ℚ) ≠ 0 := by exact_mod_cast hlen
  unfold calculate_similarity
  rw [if_neg (by simp), if_neg hlen]
  rw [show countMatches p.data p.data = p.length from countMatches_self p.data]
  rw [div_self hcast]

/-- A token returned by the similarity scan is one of the scanned tokens. -/
theorem is_similar_plate_mem (thr : ℚ) (p q : String) (keys : List String)
    (h : is_similar_plate thr p keys = some (some q)) : q ∈ keys := by
  induction keys with
  | nil => simp [is_similar_plate] at h
  | cons k rest ih =>
    rcases hcs : calculate_similarity p k with _ | s
    · simp only [is_similar_plate, hcs] at h
      exact Option.noConfusion h
    · simp only [is_similar_plate, hcs] at h
      by_cases hle : thr ≤ s
      · rw [if_pos hle] at h
        have : q = k := by simpa using h.symm
        simp [this]
      · rw [if_neg hle] at h
        exact List.mem_cons_of_mem _ (ih h)

/-- With a threshold at most 1, a token on which the scan reports no match
cannot itself be registered (its self-similarity 1 would have matched, or a
comparison of two empty tokens would have faulted first). -/
theorem is_similar_plate_none_not_mem (thr : ℚ) (p : String) (keys : List String)
    (hthr : thr ≤ 1) (h : is_similar_plate thr p keys = some none) : p ∉ keys := by
  induction keys with
  | nil => simp
  | cons k rest ih =>
    intro hmem
    rcases hcs : calculate_similarity p k with _ | s
    · simp only [is_similar_plate, hcs] at h
      exact Option.noConfusion h
    · simp only [is_similar_plate, hcs] at h
      by_cases hle : thr ≤ s
      · rw [if_pos hle] at h
        simp at h
      · rw [if_neg hle] at h
        rcases List.mem_cons.mp hmem with hk | hk
        · subst hk
          by_cases hp : p = ""
          · subst hp
            rw [show calculate_similarity "" "" = none from rfl] at hcs
            exact Option.noConfusion hcs
          · rw [calculate_similarity_self p hp] at hcs
            have : s = 1 := by simpa using hcs.symm
            rw [this] at hle
            exact hle hthr
        · exact ih h hk

/-- Membership in the sample store after `add_speed_sample`: the sample was
already there, or it is within `[5, 150]`. -/
theorem mem_add_speed_sample (sd : String → List ℚ) (plate : String) (sp : Option ℚ)
    (p : String) (s : ℚ) (h : s ∈ add_speed_sample sd plate sp p) :
    s ∈ sd p ∨ (5 ≤ s ∧ s ≤ 150) := by
  cases sp with
  | none => exact Or.inl h
  | some v =>
    simp only [add_speed_sample] at h
    by_cases hc : 5 ≤ v ∧ v ≤ 150
    · rw [if_pos hc] at h
      by_cases hp : p = plate
      · have h2 : s ∈ sd plate ++ [v] := by simpa [hp] using h
        rcases List.mem_append.mp h2 with hm | hm
        · rw [hp]
          exact Or.inl hm
        · have : s = v := by simpa using hm
          rw [this]
          exact Or.inr hc
      · have h2 : s ∈ sd p := by simpa [hp] using h
        exact Or.inl h2
    · rw [if_neg hc] at h
      exact Or.inl h

/-- Python dict assignment with a key not yet present appends. -/
theorem dictInsert_not_mem (l : List (String × VehicleInfo)) (k : String) (v : VehicleInfo)
    (h : k ∉ l.map Prod.fst) : dictInsert l k v = l ++ [(k, v)] := by
  rw [dictInsert, if_neg (by
    rw [List.any_eq_true]
    rintro ⟨e, he, hk⟩
    have he1 : e.1 = k := by simpa using hk
    exact h (he1 ▸ List.mem_map_of_mem Prod.fst he))]

/-- Python dict assignment with an existing key replaces in place. -/
theorem dictInsert_mem (l : List (String × VehicleInfo)) (k : String) (v : VehicleInfo)
    (h : k ∈ l.map Prod.fst) :
    dictInsert l k v = l.map (fun e => if e.1 == k then (k, v) else e) := by
  rw [dictInsert, if_pos]
  rw [List.any_eq_true]
  obtain ⟨e, he, hk⟩ := List.mem_map.mp h
  exact ⟨e, he, by simp [hk]⟩

/-- The in-place update map is the identity when the key is absent. -/
theorem map_update_id (l : List (String × VehicleInfo)) (k : String) (v : VehicleInfo)
    (h : k ∉ l.map Prod.fst) :
    l.map (fun e => if e.1 == k then (k, v) else e) = l := by
  induction l with
  | nil => rfl
  | cons e rest ih =>
    have hek : ¬ e.1 = k := by
      intro hc
      exact h (by rw [← hc]; exact List.mem_map_of_mem Prod.fst (List.mem_cons_self e rest))
    have hrest : k ∉ rest.map Prod.fst := fun hc => h (by simp [hc])
    have hbe : (e.1 == k) = false := by simpa using hek
    rw [List.map_cons, ih hrest]
    simp [hbe]

/-- The looked-up entry of a present key is an entry of the list. -/
theorem lookup_entry_mem (l : List (String × VehicleInfo)) (k : String)
    (h : k ∈ l.map Prod.fst) : (k, lookupInfo l k) ∈ l := by
  induction l with
  | nil => simp at h
  | cons e rest ih =>
    by_cases he : e.1 = k
    · have : lookupInfo (e :: rest) k = e.2 := by
        simp [lookupInfo, List.find?_cons, he]
      rw [this]
      have : (k, e.2) = e := by rw [← he]
      rw [this]
      exact List.mem_cons_self e rest
    · have hfind : lookupInfo (e :: rest) k = lookupInfo rest k := by
        simp [lookupInfo, List.find?_cons, he]
      rw [hfind]
      have hrest : k ∈ rest.map Prod.fst := by
        rcases List.mem_map.mp h with ⟨e', he', hk⟩
        rcases List.mem_cons.mp he' with h1 | h1
        · exact absurd (h1 ▸ hk) he
        · exact hk ▸ List.mem_map_of_mem Prod.fst h1
      exact List.mem_cons_of_mem _ (ih hrest)

/-- Projections invariant under the looked-up value are unchanged by an
in-place dict update (keys being unique). -/
theorem map_dictUpdate {α : Type} (f : String × VehicleInfo → α)
    (l : List (String × VehicleInfo)) (k : String) (v : VehicleInfo)
    (hk : (l.map Prod.fst).Nodup) (hv : f (k, v) = f (k, lookupInfo l k)) :
    (l.map (fun e => if e.1 == k then (k, v) else e)).map f = l.map f := by
  induction l with
  | nil => rfl
  | cons e rest ih =>
    have hk' : (e.1 :: rest.map Prod.fst).Nodup := by simpa using hk
    by_cases he : e.1 = k
    · have hlk : lookupInfo (e :: rest) k = e.2 := by
        simp [lookupInfo, List.find?_cons, he]
      have hknot : k ∉ rest.map Prod.fst := by
        have h1 := (List.nodup_cons.mp hk').1
        rwa [he] at h1
      rw [hlk] at hv
      have hee : (k, e.2) = e := by rw [← he]
      have hbe : (e.1 == k) = true := by simpa using he
      rw [List.map_cons, List.map_cons, map_update_id rest k v hknot]
      simp [hbe, hv, hee]
    · have hfind : lookupInfo (e :: rest) k = lookupInfo rest k := by
        simp [lookupInfo, List.find?_cons, he]
      rw [hfind] at hv
      have htl : (rest.map Prod.fst).Nodup := (List.nodup_cons.mp hk').2
      have hbe : (e.1 == k) = false := by simpa using he
      rw [List.map_cons, List.map_cons, ih htl hv]
      simp [hbe]

/-- Exhaustive description of one `detect_vehicle` call: either it faults
(leaving registry and counter untouched), or it matches an existing record
(returning `is_new = false` with the looked-up record's identity fields,
counter unchanged, registry either untouched or updated in place at the
matched key), or it registers a new record (returning `is_new = true` with
the fresh id `counter + 1` and the observation's own fields). -/
theorem detect_vehicle_cases (t : Tracker) (plate : String) (bb : BBox) (frame : ℕ)
    (sp : Option ℚ) (now : ℚ) :
    (detect_vehicle t plate bb frame sp now).1.similarity_threshold = t.similarity_threshold ∧
    (detect_vehicle t plate bb frame sp now).1.min_speed_samples = t.min_speed_samples ∧
    (((detect_vehicle t plate bb frame sp now).2 = none ∧
       (detect_vehicle t plate bb frame sp now).1.detected_plates = t.detected_plates ∧
       (detect_vehicle t plate bb frame sp now).1.vehicle_counter = t.vehicle_counter)
     ∨ (∃ sp2 info2,
         is_similar_plate t.similarity_threshold plate (t.detected_plates.map Prod.fst) =
           some (some sp2) ∧
         (detect_vehicle t plate bb frame sp now).2 = some (false, info2.vehicle_id, info2) ∧
         (detect_vehicle t plate bb frame sp now).1.vehicle_counter = t.vehicle_counter ∧
         info2.vehicle_id = (lookupInfo t.detected_plates sp2).vehicle_id ∧
         info2.bbox = (lookupInfo t.detected_plates sp2).bbox ∧
         info2.plate_number = (lookupInfo t.detected_plates sp2).plate_number ∧
         info2.first_detected_frame = (lookupInfo t.detected_plates sp2).first_detected_frame ∧
         info2.detection_time = (lookupInfo t.detected_plates sp2).detection_time ∧
         ((detect_vehicle t plate bb frame sp now).1.detected_plates = t.detected_plates ∨
          (detect_vehicle t plate bb frame sp now).1.detected_plates =
            t.detected_plates.map (fun e => if e.1 == sp2 then (sp2, info2) else e)))
     ∨ (∃ info,
         is_similar_plate t.similarity_threshold plate (t.detected_plates.map Prod.fst) =
           some none ∧
         (detect_vehicle t plate bb frame sp now).2 =
           some (true, t.vehicle_counter + 1, info) ∧
         (detect_vehicle t plate bb frame sp now).1.vehicle_counter = t.vehicle_counter + 1 ∧
         info.vehicle_id = t.vehicle_counter + 1 ∧ info.bbox = bb ∧
         info.plate_number = plate ∧ info.first_detected_frame = frame ∧
         info.detection_time = now ∧
         (detect_vehicle t plate bb frame sp now).1.detected_plates =
           dictInsert t.detected_plates plate info)) := by
  rcases hscrut : is_similar_plate t.similarity_threshold plate
      (t.detected_plates.map Prod.fst) with _ | o2
  · refine ⟨?_, ?_, Or.inl ⟨?_, ?_, ?_⟩⟩ <;> simp only [detect_vehicle, hscrut]
  · rcases o2 with _ | sp2
    · cases sp with
      | none =>
        refine ⟨?_, ?_, Or.inr (Or.inr
          ⟨{ vehicle_id := t.vehicle_counter + 1, plate_number := plate,
             first_detected_frame := frame, detection_time := now, bbox := bb,
             final_speed := none, speed_status := SpeedStatus.notCalculated,
             total_speed_samples := 0 },
            rfl, ?_, ?_, rfl, rfl, rfl, rfl, rfl, ?_⟩)⟩ <;>
          simp only [detect_vehicle, hscrut]
      | some v =>
        refine ⟨?_, ?_, Or.inr (Or.inr
          ⟨{ vehicle_id := t.vehicle_counter + 1, plate_number := plate,
             first_detected_frame := frame, detection_time := now, bbox := bb,
             final_speed := none,
             speed_status := SpeedStatus.calculating
               (add_speed_sample t.speed_data plate (some v) plate).length
               t.min_speed_samples,
             total_speed_samples := 0 },
            rfl, ?_, ?_, rfl, rfl, rfl, rfl, rfl, ?_⟩)⟩ <;>
          simp only [detect_vehicle, hscrut]
    · have hmem : sp2 ∈ t.detected_plates.map Prod.fst :=
        is_similar_plate_mem _ _ _ _ hscrut
      cases sp with
      | none =>
        refine ⟨?_, ?_, Or.inr (Or.inl ⟨sp2, lookupInfo t.detected_plates sp2, rfl,
          ?_, ?_, rfl, rfl, rfl, rfl, rfl, Or.inl ?_⟩)⟩ <;>
          simp only [detect_vehicle, hscrut]
      | some v =>
        rcases hg : get_final_speed t.min_speed_samples
            (add_speed_sample t.speed_data sp2 (some v) sp2) with _ | fo
        · refine ⟨?_, ?_, Or.inl ⟨?_, ?_, ?_⟩⟩ <;> simp only [detect_vehicle, hscrut, hg]
        · rcases fo with _ | f
          · refine ⟨?_, ?_, Or.inr (Or.inl ⟨sp2,
              { lookupInfo t.detected_plates sp2 with
                speed_status := SpeedStatus.calculating
                  (add_speed_sample t.speed_data sp2 (some v) sp2).length
                  t.min_speed_samples },
              rfl, ?_, ?_, rfl, rfl, rfl, rfl, rfl, Or.inr ?_⟩)⟩
            · simp only [detect_vehicle, hscrut, hg]
            · simp only [detect_vehicle, hscrut, hg]
            · simp only [detect_vehicle, hscrut, hg]
            · simp only [detect_vehicle, hscrut, hg]
            · have hplates : (detect_vehicle t plate bb frame (some v) now).1.detected_plates =
                  dictInsert t.detected_plates sp2
                    { lookupInfo t.detected_plates sp2 with
                      speed_status := SpeedStatus.calculating
                        (add_speed_sample t.speed_data sp2 (some v) sp2).length
                        t.min_speed_samples } := by
                simp only [detect_vehicle, hscrut, hg]
              rw [hplates]
              exact dictInsert_mem t.detected_plates sp2 _ hmem
          · refine ⟨?_, ?_, Or.inr (Or.inl ⟨sp2,
              { lookupInfo t.detected_plates sp2 with
                final_speed := some f, speed_status := SpeedStatus.finalized },
              rfl, ?_, ?_, rfl, rfl, rfl, rfl, rfl, Or.inr ?_⟩)⟩
            · simp only [detect_vehicle, hscrut, hg]
            · simp only [detect_vehicle, hscrut, hg]
            · simp only [detect_vehicle, hscrut, hg]
            · simp only [detect_vehicle, hscrut, hg]
            · have hplates : (detect_vehicle t plate bb frame (some v) now).1.detected_plates =
                  dictInsert t.detected_plates sp2
                    { lookupInfo t.detected_plates sp2 with
                      final_speed := some f, speed_status := SpeedStatus.finalized } := by
                simp only [detect_vehicle, hscrut, hg]
              rw [hplates]
              exact dictInsert_mem t.detected_plates sp2 _ hmem

/-- One step never changes the configuration fields of the tracker. -/
theorem stepOp_config (t : Tracker) (o : Op) :
    (stepOp t o).similarity_threshold = t.similarity_threshold ∧
    (stepOp t o).min_speed_samples = t.min_speed_samples := by
  cases o with
  | detect p bb f s now =>
    exact ⟨(detect_vehicle_cases t p bb f s now).1,
      (detect_vehicle_cases t p bb f s now).2.1⟩
  | addSample p s => exact ⟨rfl, rfl⟩
  | finalizeAll => exact ⟨rfl, rfl⟩

/-- Registry well-formedness: keys are unique, ids are unique, and every id
lies in `[1, vehicle_counter]`. -/
def registryAux (l : List (String × VehicleInfo)) (c : ℕ) : Prop :=
  (l.map Prod.fst).Nodup ∧ (l.map (fun e => e.2.vehicle_id)).Nodup ∧
  ∀ n ∈ l.map (fun e => e.2.vehicle_id), 1 ≤ n ∧ n ≤ c

/-- Well-formedness of a tracker state. -/
def registryInv (t : Tracker) : Prop := registryAux t.detected_plates t.vehicle_counter

/-- The step `finalize_info` preserves the key and the identity fields of the record. -/
theorem finalize_info_key_id (minS : ℕ) (sd : String → List ℚ) (e e2 : String × VehicleInfo)
    (h : finalize_info minS sd e = some e2) :
    e2.1 = e.1 ∧ e2.2.vehicle_id = e.2.vehicle_id ∧ e2.2.bbox = e.2.bbox ∧
    e2.2.plate_number = e.2.plate_number ∧
    e2.2.first_detected_frame = e.2.first_detected_frame ∧
    e2.2.detection_time = e.2.detection_time := by
  unfold finalize_info at h
  by_cases hf : e.2.final_speed = none
  · rw [if_pos hf] at h
    rcases hg : get_final_speed minS (sd e.1) with _ | fo
    · rw [hg] at h
      exact Option.noConfusion h
    · rcases fo with _ | f
      · rw [hg] at h
        by_cases hn : 0 < (sd e.1).length
        · rw [if_pos hn] at h
          simp only [Option.map_some'] at h
          rw [← Option.some.inj h]
          exact ⟨rfl, rfl, rfl, rfl, rfl, rfl⟩
        · rw [if_neg hn] at h
          simp only [Option.map_some'] at h
          rw [← Option.some.inj h]
          exact ⟨rfl, rfl, rfl, rfl, rfl, rfl⟩
      · rw [hg] at h
        simp only [Option.map_some'] at h
        rw [← Option.some.inj h]
        exact ⟨rfl, rfl, rfl, rfl, rfl, rfl⟩
  · rw [if_neg hf] at h
    simp only [Option.map_some'] at h
    rw [← Option.some.inj h]
    exact ⟨rfl, rfl, rfl, rfl, rfl, rfl⟩

/-- The finalization loop preserves keys paired with ids. -/
theorem finalizeList_key_id (minS : ℕ) (sd : String → List ℚ)
    (l : List (String × VehicleInfo)) :
    (finalizeList minS sd l).1.map (fun e => (e.1, e.2.vehicle_id)) =
      l.map (fun e => (e.1, e.2.vehicle_id)) := by
  induction l with
  | nil => rfl
  | cons e rest ih =>
    rcases hf : finalize_info minS sd e with _ | e2
    · simp only [finalizeList, hf]
    · simp only [finalizeList, hf, List.map_cons]
      have hk := finalize_info_key_id minS sd e e2 hf
      rw [ih]
      simp [hk.1, hk.2.1]

/-- The finalization loop preserves the key list. -/
theorem finalizeList_keys (minS : ℕ) (sd : String → List ℚ)
    (l : List (String × VehicleInfo)) :
    (finalizeList minS sd l).1.map Prod.fst = l.map Prod.fst := by
  have h1 : ((finalizeList minS sd l).1.map (fun e => (e.1, e.2.vehicle_id))).map Prod.fst =
      (l.map (fun e => (e.1, e.2.vehicle_id))).map Prod.fst := by
    rw [finalizeList_key_id]
  simpa [List.map_map, Function.comp] using h1

/-- The finalization loop preserves the id list. -/
theorem finalizeList_ids (minS : ℕ) (sd : String → List ℚ)
    (l : List (String × VehicleInfo)) :
    (finalizeList minS sd l).1.map (fun e => e.2.vehicle_id) =
      l.map (fun e => e.2.vehicle_id) := by
  have h1 : ((finalizeList minS sd l).1.map (fun e => (e.1, e.2.vehicle_id))).map Prod.snd =
      (l.map (fun e => (e.1, e.2.vehicle_id))).map Prod.snd := by
    rw [finalizeList_key_id]
  simpa [List.map_map, Function.comp] using h1

/-- Every tracker operation preserves registry well-formedness, provided the
similarity threshold is a genuine ratio bound (at most 1). -/
theorem registryInv_step (t : Tracker) (o : Op) (hthr : t.similarity_threshold ≤ 1)
    (hInv : registryInv t) : registryInv (stepOp t o) := by
  obtain ⟨hkeys, hids, hbound⟩ := hInv
  cases o with
  | addSample p s => exact ⟨hkeys, hids, hbound⟩
  | finalizeAll =>
    have hk : (stepOp t Op.finalizeAll).detected_plates =
        (finalizeList t.min_speed_samples t.speed_data t.detected_plates).1 := rfl
    have hc : (stepOp t Op.finalizeAll).vehicle_counter = t.vehicle_counter := rfl
    refine ⟨?_, ?_, ?_⟩
    · rw [hk, finalizeList_keys]
      exact hkeys
    · rw [hk, finalizeList_ids]
      exact hids
    · intro n hn
      rw [hk, finalizeList_ids] at hn
      rw [hc]
      exact hbound n hn
  | detect plate bb f s now =>
    obtain ⟨hth, hmin, hcases⟩ := detect_vehicle_cases t plate bb f s now
    rcases hcases with ⟨_, hp, hc⟩ |
        ⟨sp2, info2, hscrut, _, hc, hid, _, _, _, _, hp⟩ |
        ⟨info, hscrut, _, hc, hid, _, _, _, _, hp⟩
    · show registryAux (detect_vehicle t plate bb f s now).1.detected_plates
        (detect_vehicle t plate bb f s now).1.vehicle_counter
      rw [hp, hc]
      exact ⟨hkeys, hids, hbound⟩
    · show registryAux (detect_vehicle t plate bb f s now).1.detected_plates
        (detect_vehicle t plate bb f s now).1.vehicle_counter
      rcases hp with hp | hp
      · rw [hp, hc]
        exact ⟨hkeys, hids, hbound⟩
      · rw [hp, hc]
        have hkeq := map_dictUpdate Prod.fst t.detected_plates sp2 info2 hkeys rfl
        have hideq := map_dictUpdate (fun e => e.2.vehicle_id) t.detected_plates sp2 info2
          hkeys hid
        refine ⟨?_, ?_, ?_⟩
        · rw [hkeq]
          exact hkeys
        · rw [hideq]
          exact hids
        · intro n hn
          rw [hideq] at hn
          exact hbound n hn
    · show registryAux (detect_vehicle t plate bb f s now).1.detected_plates
        (detect_vehicle t plate bb f s now).1.vehicle_counter
      have hnotmem : plate ∉ t.detected_plates.map Prod.fst :=
        is_similar_plate_none_not_mem t.similarity_threshold plate _ hthr hscrut
      rw [hp, hc, dictInsert_not_mem _ _ _ hnotmem]
      refine ⟨?_, ?_, ?_⟩
      · rw [List.map_append]
        rw [List.nodup_append]
        refine ⟨hkeys, by simp, ?_⟩
        intro a ha hb
        have : a = plate := by simpa using hb
        rw [this] at ha
        exact hnotmem ha
      · rw [List.map_append]
        rw [List.nodup_append]
        refine ⟨hids, by simp, ?_⟩
        intro a ha hb
        have hb2 : a = info.vehicle_id := by simpa using hb
        have := (hbound a ha).2
        rw [hb2, hid] at this
        omega
      · intro n hn
        rw [List.map_append] at hn
        rcases List.mem_append.mp hn with hm | hm
        · have := hbound n hm
          omega
        · have : n = info.vehicle_id := by simpa using hm
          rw [this, hid]
          omega

/-- Registry well-formedness holds after any run from a fresh tracker with a
ratio threshold. -/
theorem registryInv_runOps_aux (ops : List Op) (t : Tracker)
    (hthr : t.similarity_threshold ≤ 1) (hInv : registryInv t) :
    registryInv (runOps t ops) := by
  induction ops generalizing t with
  | nil => exact hInv
  | cons o rest ih =>
    have hstep := registryInv_step t o hthr hInv
    have hthr2 : (stepOp t o).similarity_threshold ≤ 1 := by
      rw [(stepOp_config t o).1]
      exact hthr
    exact ih (stepOp t o) hthr2 hstep

/-! ## Claims C5, C6, C9 -/

/-- Membership in the sample store after one `detect_vehicle` call. -/
theorem detect_speed_data_mem (t : Tracker) (plate : String) (bb : BBox) (frame : ℕ)
    (sp : Option ℚ) (now : ℚ) (p : String) (s : ℚ)
    (h : s ∈ (detect_vehicle t plate bb frame sp now).1.speed_data p) :
    s ∈ t.speed_data p ∨ (5 ≤ s ∧ s ≤ 150) := by
  rcases hscrut : is_similar_plate t.similarity_threshold plate
      (t.detected_plates.map Prod.fst) with _ | o2
  · have hsd : (detect_vehicle t plate bb frame sp now).1.speed_data = t.speed_data := by
      simp only [detect_vehicle, hscrut]
    rw [hsd] at h
    exact Or.inl h
  · rcases o2 with _ | sp2
    · have hsd : (detect_vehicle t plate bb frame sp now).1.speed_data =
          add_speed_sample t.speed_data plate sp := by
        cases sp <;> simp only [detect_vehicle, hscrut]
      rw [hsd] at h
      exact mem_add_speed_sample _ _ _ _ _ h
    · cases sp with
      | none =>
        have hsd : (detect_vehicle t plate bb frame none now).1.speed_data =
            t.speed_data := by
          simp only [detect_vehicle, hscrut]
        rw [hsd] at h
        exact Or.inl h
      | some v =>
        rcases hg : get_final_speed t.min_speed_samples
            (add_speed_sample t.speed_data sp2 (some v) sp2) with _ | fo
        · have hsd : (detect_vehicle t plate bb frame (some v) now).1.speed_data =
              add_speed_sample t.speed_data sp2 (some v) := by
            simp only [detect_vehicle, hscrut, hg]
          rw [hsd] at h
          exact mem_add_speed_sample _ _ _ _ _ h
        · rcases fo with _ | f <;>
          · have hsd : (detect_vehicle t plate bb frame (some v) now).1.speed_data =
                add_speed_sample t.speed_data sp2 (some v) := by
              simp only [detect_vehicle, hscrut, hg]
            rw [hsd] at h
            exact mem_add_speed_sample _ _ _ _ _ h

/-- Membership in the sample store after one operation. -/
theorem stepOp_speed_mem (t : Tracker) (o : Op) (p : String) (s : ℚ)
    (h : s ∈ (stepOp t o).speed_data p) : s ∈ t.speed_data p ∨ (5 ≤ s ∧ s ≤ 150) := by
  cases o with
  | detect plate bb f sp now => exact detect_speed_data_mem t plate bb f sp now p s h
  | addSample q sp => exact mem_add_speed_sample _ _ _ _ _ h
  | finalizeAll => exact Or.inl h

/-- C5: after any sequence of operations on a fresh tracker, every sample
present in any record's aggregate sample list lies within [5, 150] km/h —
out-of-range or absent samples are never admitted. -/
theorem C5_sample_range (thr : ℚ) (minS : ℕ) (ops : List Op) (p : String) (s : ℚ)
    (h : s ∈ (runOps (initTracker thr minS) ops).speed_data p) : 5 ≤ s ∧ s ≤ 150 := by
  suffices haux : ∀ (ops2 : List Op) (t : Tracker),
      (∀ q x, x ∈ t.speed_data q → 5 ≤ x ∧ x ≤ 150) →
      ∀ q x, x ∈ (runOps t ops2).speed_data q → 5 ≤ x ∧ x ≤ 150 by
    refine haux ops (initTracker thr minS) ?_ p s h
    intro q x hx
    simp [initTracker] at hx
  intro ops2
  induction ops2 with
  | nil => exact fun t ht q x hx => ht q x hx
  | cons o rest ih =>
    intro t ht q x hx
    refine ih (stepOp t o) ?_ q x hx
    intro q2 x2 hx2
    rcases stepOp_speed_mem t o q2 x2 hx2 with hm | hm
    · exact ht q2 x2 hm
    · exact hm

/-- Witness for C5: one admitted sample on a fresh tracker. -/
theorem C5_sample_range_witness : 5 ≤ (60 : ℚ) ∧ (60 : ℚ) ≤ 150 := by
  refine C5_sample_range (4/5) 3 [Op.addSample "KA01AB1234" (some 60)] "KA01AB1234" 60 ?_
  norm_num [runOps, stepOp, add_speed_sample, initTracker]

/-- C6: across the life of a registry instance (threshold being a ratio
bound ≤ 1), record ids are pairwise distinct and lie in
`[1, vehicle_counter]`; a registration assigns exactly the next id
`vehicle_counter + 1`, strictly greater than every existing id (so ids are
1, 2, 3, … in registration order, never reused); and a matched observation
changes no record's id. -/
theorem C6_ids (thr : ℚ) (minS : ℕ) (ops : List Op) (plate : String) (bb : BBox)
    (frame : ℕ) (sp : Option ℚ) (now : ℚ) (hthr0 : thr ≤ 1) :
    (((runOps (initTracker thr minS) ops).detected_plates.map
        (fun e => e.2.vehicle_id)).Nodup ∧
      ∀ e ∈ (runOps (initTracker thr minS) ops).detected_plates,
        1 ≤ e.2.vehicle_id ∧
          e.2.vehicle_id ≤ (runOps (initTracker thr minS) ops).vehicle_counter) ∧
    (∀ i info,
      (detect_vehicle (runOps (initTracker thr minS) ops) plate bb frame sp now).2 =
        some (true, i, info) →
      i = (runOps (initTracker thr minS) ops).vehicle_counter + 1 ∧
      ∀ e ∈ (runOps (initTracker thr minS) ops).detected_plates, e.2.vehicle_id < i) ∧
    (∀ i info,
      (detect_vehicle (runOps (initTracker thr minS) ops) plate bb frame sp now).2 =
        some (false, i, info) →
      (detect_vehicle (runOps (initTracker thr minS) ops)
          plate bb frame sp now).1.detected_plates.map
          (fun e => (e.1, e.2.vehicle_id)) =
        (runOps (initTracker thr minS) ops).detected_plates.map
          (fun e => (e.1, e.2.vehicle_id))) := by
  have hInv : registryInv (runOps (initTracker thr minS) ops) :=
    registryInv_runOps_aux ops _ hthr0
      ⟨by simp [initTracker], by simp [initTracker], by simp [initTracker]⟩
  obtain ⟨hkeys, hids, hbound⟩ := hInv
  refine ⟨⟨hids, ?_⟩, ?_, ?_⟩
  · intro e he
    exact hbound e.2.vehicle_id (List.mem_map_of_mem _ he)
  · intro i info h
    obtain ⟨_, _, hcases⟩ := detect_vehicle_cases (runOps (initTracker thr minS) ops)
      plate bb frame sp now
    rcases hcases with ⟨hr2, _, _⟩ |
        ⟨sp2, info2, _, hr2, _, _, _, _, _, _, _⟩ |
        ⟨info0, _, hr2, _, _, _, _, _, _, _⟩
    · rw [h] at hr2
      exact Option.noConfusion hr2
    · rw [h] at hr2
      have hinj := Option.some.inj hr2
      simp at hinj
    · rw [h] at hr2
      have hinj := Option.some.inj hr2
      have hi : i = (runOps (initTracker thr minS) ops).vehicle_counter + 1 := by
        have := congrArg (fun x => x.2.1) hinj
        simpa using this
      refine ⟨hi, ?_⟩
      intro e he
      have hb := hbound e.2.vehicle_id (List.mem_map_of_mem _ he)
      omega
  · intro i info h
    obtain ⟨_, _, hcases⟩ := detect_vehicle_cases (runOps (initTracker thr minS) ops)
      plate bb frame sp now
    rcases hcases with ⟨hr2, _, _⟩ |
        ⟨sp2, info2, _, hr2, _, hid, _, _, _, _, hp⟩ |
        ⟨info0, _, hr2, _, _, _, _, _, _, _⟩
    · rw [h] at hr2
      exact Option.noConfusion hr2
    · rcases hp with hp | hp
      · rw [hp]
      · rw [hp]
        exact map_dictUpdate (fun e => (e.1, e.2.vehicle_id)) _ sp2 info2 hkeys
          (by simp [hid])
    · rw [h] at hr2
      have hinj := Option.some.inj hr2
      simp at hinj

/-- Witness for C6 at the default threshold on the empty run. -/
theorem C6_ids_witness :
    ((runOps (initTracker (4/5) 3) []).detected_plates.map
      (fun e => e.2.vehicle_id)).Nodup := by
  exact (C6_ids (4/5) 3 [] "KA01AB1234" bbC1 0 none 0 (by norm_num)).1.1

/-- A second, different bounding region used by the C9 counterexample. -/
def bbC9 : BBox := { x := 100, y := 5, w := 20, h := 20 }

/-- C9 counterexample: observing the same plate twice with different bounding
regions leaves the stored record's region at the FIRST observation's region —
the matched detection does not mutate it to the last-known region, refuting
the claim. -/
theorem C9_counterexample :
    (detect_vehicle
        (detect_vehicle (initTracker (4/5) 3) "KA05MH9999" bbC1 1 none 0).1
        "KA05MH9999" bbC9 2 none 0).2.map (fun x => (x.1, x.2.2.bbox)) =
      some (false, bbC1) ∧
    (detect_vehicle
        (detect_vehicle (initTracker (4/5) 3) "KA05MH9999" bbC1 1 none 0).1
        "KA05MH9999" bbC9 2 none 0).1.detected_plates.map (fun e => e.2.bbox) =
      [bbC1] ∧
    bbC1 ≠ bbC9 := by
  have hsim : calculate_similarity "KA05MH9999" "KA05MH9999" = some 1 :=
    calculate_similarity_self _ (by decide)
  have hsp : is_similar_plate (4/5) "KA05MH9999" ["KA05MH9999"] =
      some (some "KA05MH9999") := by
    simp only [is_similar_plate, hsim]
    rw [if_pos (by norm_num)]
  have ht1 : (detect_vehicle (initTracker (4/5) 3) "KA05MH9999" bbC1 1 none 0).1 =
      { similarity_threshold := 4/5, min_speed_samples := 3
        detected_plates := [("KA05MH9999",
          { vehicle_id := 1, plate_number := "KA05MH9999", first_detected_frame := 1
            detection_time := 0, bbox := bbC1, final_speed := none
            speed_status := SpeedStatus.notCalculated, total_speed_samples := 0 })]
        vehicle_counter := 1, speed_data := fun _ => [] } := rfl
  rw [ht1]
  refine ⟨?_, ?_, by decide⟩ <;> simp [detect_vehicle, hsp, lookupInfo]

/-- C9 (amended): a matched detection does NOT update the stored bounding
region — together with the canonical token, id, first-seen frame and
first-seen timestamp it stays exactly as set by the first (registering)
observation, which records the region of that first detection; only the
speed-related fields are mutated on a match. -/
theorem C9_region (thr : ℚ) (minS : ℕ) (ops : List Op) (plate : String) (bb : BBox)
    (frame : ℕ) (sp : Option ℚ) (now : ℚ) (hthr0 : thr ≤ 1) :
    (∀ i info,
      (detect_vehicle (runOps (initTracker thr minS) ops) plate bb frame sp now).2 =
        some (false, i, info) →
      (detect_vehicle (runOps (initTracker thr minS) ops)
          plate bb frame sp now).1.detected_plates.map
          (fun e => (e.1, e.2.bbox, e.2.plate_number, e.2.vehicle_id,
            e.2.first_detected_frame, e.2.detection_time)) =
        (runOps (initTracker thr minS) ops).detected_plates.map
          (fun e => (e.1, e.2.bbox, e.2.plate_number, e.2.vehicle_id,
            e.2.first_detected_frame, e.2.detection_time))) ∧
    (∀ i info,
      (detect_vehicle (runOps (initTracker thr minS) ops) plate bb frame sp now).2 =
        some (true, i, info) →
      info.bbox = bb ∧ info.plate_number = plate ∧
      info.first_detected_frame = frame ∧ info.detection_time = now) := by
  have hInv : registryInv (runOps (initTracker thr minS) ops) :=
    registryInv_runOps_aux ops _ hthr0
      ⟨by simp [initTracker], by simp [initTracker], by simp [initTracker]⟩
  obtain ⟨hkeys, _, _⟩ := hInv
  constructor
  · intro i info h
    obtain ⟨_, _, hcases⟩ := detect_vehicle_cases (runOps (initTracker thr minS) ops)
      plate bb frame sp now
    rcases hcases with ⟨hr2, _, _⟩ |
        ⟨sp2, info2, _, hr2, _, hid, hbb, hpn, hff, hdt, hp⟩ |
        ⟨info0, _, hr2, _, _, _, _, _, _, _⟩
    · rw [h] at hr2
      exact Option.noConfusion hr2
    · rcases hp with hp | hp
      · rw [hp]
      · rw [hp]
        exact map_dictUpdate
          (fun e => (e.1, e.2.bbox, e.2.plate_number, e.2.vehicle_id,
            e.2.first_detected_frame, e.2.detection_time)) _ sp2 info2 hkeys
          (by simp [hid, hbb, hpn, hff, hdt])
    · rw [h] at hr2
      have hinj := Option.some.inj hr2
      simp at hinj
  · intro i info h
    obtain ⟨_, _, hcases⟩ := detect_vehicle_cases (runOps (initTracker thr minS) ops)
      plate bb frame sp now
    rcases hcases with ⟨hr2, _, _⟩ |
        ⟨sp2, info2, _, hr2, _, _, _, _, _, _, _⟩ |
        ⟨info0, _, hr2, _, _, hbb, hpn, hff, hdt, _⟩
    · rw [h] at hr2
      exact Option.noConfusion hr2
    · rw [h] at hr2
      have hinj := Option.some.inj hr2
      simp at hinj
    · rw [h] at hr2
      have hinj := Option.some.inj hr2
      have hinfo : info = info0 := by
        have := congrArg (fun x => x.2.2) hinj
        simpa using this
      rw [hinfo]
      exact ⟨hbb, hpn, hff, hdt⟩

/-- Witness for the amended C9: a concrete matched second observation. -/
theorem C9_region_witness :
    (detect_vehicle
        (runOps (initTracker (4/5) 3) [Op.detect "KA05MH9999" bbC1 1 none 0])
        "KA05MH9999" bbC9 2 none 0).1.detected_plates.map
        (fun e => (e.1, e.2.bbox, e.2.plate_number, e.2.vehicle_id,
          e.2.first_detected_frame, e.2.detection_time)) =
      (runOps (initTracker (4/5) 3)
          [Op.detect "KA05MH9999" bbC1 1 none 0]).detected_plates.map
        (fun e => (e.1, e.2.bbox, e.2.plate_number, e.2.vehicle_id,
          e.2.first_detected_frame, e.2.detection_time)) := by
  refine (C9_region (4/5) 3 [Op.detect "KA05MH9999" bbC1 1 none 0] "KA05MH9999" bbC9 2
    none 0 (by norm_num)).1 1
    { vehicle_id := 1, plate_number := "KA05MH9999", first_detected_frame := 1
      detection_time := 0, bbox := bbC1, final_speed := none
      speed_status := SpeedStatus.notCalculated, total_speed_samples := 0 } ?_
  have hsim : calculate_similarity "KA05MH9999" "KA05MH9999" = some 1 :=
    calculate_similarity_self _ (by decide)
  have hsp : is_similar_plate (4/5) "KA05MH9999" ["KA05MH9999"] =
      some (some "KA05MH9999") := by
    simp only [is_similar_plate, hsim]
    rw [if_pos (by norm_num)]
  have ht1 : runOps (initTracker (4/5) 3) [Op.detect "KA05MH9999" bbC1 1 none 0] =
      { similarity_threshold := 4/5, min_speed_samples := 3
        detected_plates := [("KA05MH9999",
          { vehicle_id := 1, plate_number := "KA05MH9999", first_detected_frame := 1
            detection_time := 0, bbox := bbC1, final_speed := none
            speed_status := SpeedStatus.notCalculated, total_speed_samples := 0 })]
        vehicle_counter := 1, speed_data := fun _ => [] } := rfl
  rw [ht1]
  simp [detect_vehicle, hsp, lookupInfo]

/-! ## Claim C8 -/

/-- With a positive configured minimum, `get_final_speed` never faults. -/
theorem get_final_speed_ne_none (minS : ℕ) (speeds : List ℚ) (hmin : 1 ≤ minS) :
    get_final_speed minS speeds ≠ none := by
  intro hc
  unfold get_final_speed at hc
  by_cases h1 : minS ≤ speeds.length
  · rw [if_pos h1] at hc
    by_cases h0 : speeds.length = 0
    · omega
    · rw [if_neg h0] at hc
      by_cases h2 : 0 < (fencedSamples speeds).length
      · rw [if_pos h2] at hc
        exact Option.noConfusion hc
      · rw [if_neg h2] at hc
        exact Option.noConfusion hc
  · rw [if_neg h1] at hc
    exact Option.noConfusion hc

/-- Below the minimum sample count, `get_final_speed` reports no estimate. -/
theorem get_final_speed_short (minS : ℕ) (speeds : List ℚ)
    (hlt : speeds.length < minS) : get_final_speed minS speeds = some none := by
  unfold get_final_speed
  rw [if_neg (by omega)]

/-- Evaluating `finalize_info` on a record with no final speed and too few (but some)
samples: unfiltered mean, status `EstimatedFromN`. -/
theorem finalize_info_of_lt (minS : ℕ) (sd : String → List ℚ) (e : String × VehicleInfo)
    (hf : e.2.final_speed = none) (hn : 0 < (sd e.1).length)
    (hlt : (sd e.1).length < minS) :
    finalize_info minS sd e = some (e.1,
      { e.2 with final_speed := some (round1 (mean (sd e.1)))
                 speed_status := SpeedStatus.estimatedFrom (sd e.1).length
                 total_speed_samples := (sd e.1).length }) := by
  unfold finalize_info
  rw [if_pos hf, get_final_speed_short _ _ hlt, if_pos hn]
  rfl

/-- Evaluating `finalize_info` on a record with no final speed and no samples:
status `NoData`, final speed stays absent. -/
theorem finalize_info_of_zero (minS : ℕ) (sd : String → List ℚ)
    (e : String × VehicleInfo) (hmin : 1 ≤ minS) (hf : e.2.final_speed = none)
    (h0 : (sd e.1).length = 0) :
    finalize_info minS sd e = some (e.1,
      { e.2 with speed_status := SpeedStatus.noData
                 total_speed_samples := (sd e.1).length }) := by
  unfold finalize_info
  rw [if_pos hf, get_final_speed_short _ _ (by omega), if_neg (by omega)]
  rfl

/-- With a positive configured minimum, `finalize_info` never faults. -/
theorem finalize_info_ne_none (minS : ℕ) (sd : String → List ℚ)
    (e : String × VehicleInfo) (hmin : 1 ≤ minS) : finalize_info minS sd e ≠ none := by
  intro hc
  unfold finalize_info at hc
  by_cases hf : e.2.final_speed = none
  · rw [if_pos hf] at hc
    rcases hg : get_final_speed minS (sd e.1) with _ | fo
    · exact get_final_speed_ne_none minS (sd e.1) hmin hg
    · rw [hg] at hc
      rcases fo with _ | f
      · by_cases hn : 0 < (sd e.1).length
        · rw [if_pos hn] at hc
          exact Option.noConfusion hc
        · rw [if_neg hn] at hc
          exact Option.noConfusion hc
      · exact Option.noConfusion hc
  · rw [if_neg hf] at hc
    exact Option.noConfusion hc

/-- Pointwise description of the finalization loop under a positive minimum. -/
theorem finalizeList_forall2 (minS : ℕ) (sd : String → List ℚ)
    (l : List (String × VehicleInfo)) (hmin : 1 ≤ minS) :
    List.Forall₂ (fun e2 e =>
      e2.1 = e.1 ∧
      (e.2.final_speed = none → 0 < (sd e.1).length → (sd e.1).length < minS →
        e2.2.final_speed = some (round1 (mean (sd e.1))) ∧
        e2.2.speed_status = SpeedStatus.estimatedFrom (sd e.1).length) ∧
      (e.2.final_speed = none → (sd e.1).length = 0 →
        e2.2.final_speed = none ∧ e2.2.speed_status = SpeedStatus.noData))
      (finalizeList minS sd l).1 l := by
  induction l with
  | nil => exact List.Forall₂.nil
  | cons e rest ih =>
    rcases hf : finalize_info minS sd e with _ | e2
    · exact absurd hf (finalize_info_ne_none minS sd e hmin)
    · simp only [finalizeList, hf]
      refine List.Forall₂.cons ⟨(finalize_info_key_id minS sd e e2 hf).1, ?_, ?_⟩ ih
      · intro hfn hn hlt
        have heq := finalize_info_of_lt minS sd e hfn hn hlt
        rw [heq] at hf
        have h2 := Option.some.inj hf
        rw [← h2]
        exact ⟨rfl, rfl⟩
      · intro hfn h0
        have heq := finalize_info_of_zero minS sd e hmin hfn h0
        rw [heq] at hf
        have h2 := Option.some.inj hf
        rw [← h2]
        exact ⟨hfn, rfl⟩

/-- A token matches a single-entry registry holding itself. -/
theorem is_similar_self_match (p : String) (hp : p ≠ "") (thr : ℚ) (hthr : thr ≤ 1) :
    is_similar_plate thr p [p] = some (some p) := by
  simp only [is_similar_plate, calculate_similarity_self p hp]
  rw [if_pos hthr]

/-- C8: after `finalize_all_speeds` (with the positive configured minimum),
the loop completes without fault and every record that had no final speed
gets, when its raw-sample count is positive but below the minimum, the
unfiltered mean rounded to one decimal with status `EstimatedFromN`, and,
when it has zero samples, status `NoData` with the final speed still absent;
in particular two samples 20.0 and 24.0 under minimum 3 end as 22.0 with
status `EstimatedFrom 2`. -/
theorem C8_finalize_all (t : Tracker) (hmin : 1 ≤ t.min_speed_samples) :
    (finalize_all_speeds t).2 = true ∧
    List.Forall₂ (fun e2 e =>
      e2.1 = e.1 ∧
      (e.2.final_speed = none → 0 < (t.speed_data e.1).length →
        (t.speed_data e.1).length < t.min_speed_samples →
        e2.2.final_speed = some (round1 (mean (t.speed_data e.1))) ∧
        e2.2.speed_status = SpeedStatus.estimatedFrom (t.speed_data e.1).length) ∧
      (e.2.final_speed = none → (t.speed_data e.1).length = 0 →
        e2.2.final_speed = none ∧ e2.2.speed_status = SpeedStatus.noData))
      (finalize_all_speeds t).1.detected_plates t.detected_plates ∧
    (runOps (initTracker (4/5) 3)
        [Op.detect "DL01AB1234" bbC1 1 (some 20) 0,
         Op.detect "DL01AB1234" bbC1 2 (some 24) 0,
         Op.finalizeAll]).detected_plates.map
        (fun e => (e.2.final_speed, e.2.speed_status)) =
      [(some 22, SpeedStatus.estimatedFrom 2)] := by
  refine ⟨?_, finalizeList_forall2 t.min_speed_samples t.speed_data t.detected_plates hmin, ?_⟩
  · show (finalizeList t.min_speed_samples t.speed_data t.detected_plates).2 = true
    induction t.detected_plates with
    | nil => rfl
    | cons e rest ih =>
      rcases hf : finalize_info t.min_speed_samples t.speed_data e with _ | e2
      · exact absurd hf (finalize_info_ne_none t.min_speed_samples t.speed_data e hmin)
      · simp only [finalizeList, hf]
        exact ih
  · set P : String := "DL01AB1234" with hP
    have hsp1 : is_similar_plate (4/5) P [P] = some (some P) :=
      is_similar_self_match P (by decide) (4/5) (by norm_num)
    set t1 := (detect_vehicle (initTracker (4/5) 3) P bbC1 1 (some 20) 0).1 with ht1def
    have h1p : t1.detected_plates =
        [(P, { vehicle_id := 1, plate_number := P, first_detected_frame := 1
               detection_time := 0, bbox := bbC1, final_speed := none
               speed_status := SpeedStatus.calculating 1 3, total_speed_samples := 0 })] := by
      rw [ht1def]
      norm_num [detect_vehicle, is_similar_plate, initTracker, add_speed_sample, dictInsert]
    have h1thr : t1.similarity_threshold = 4/5 := by
      rw [ht1def]
      norm_num [detect_vehicle, is_similar_plate, initTracker, add_speed_sample]
    have h1min : t1.min_speed_samples = 3 := by
      rw [ht1def]
      norm_num [detect_vehicle, is_similar_plate, initTracker, add_speed_sample]
    have h1s : t1.speed_data P = [20] := by
      rw [ht1def]
      norm_num [detect_vehicle, is_similar_plate, initTracker, add_speed_sample]
    set t2 := (detect_vehicle t1 P bbC1 2 (some 24) 0).1 with ht2def
    have h2scrut : is_similar_plate t1.similarity_threshold P
        (t1.detected_plates.map Prod.fst) = some (some P) := by
      rw [h1thr, h1p]
      simpa using hsp1
    have h2sd : add_speed_sample t1.speed_data P (some 24) P = [20, 24] := by
      unfold add_speed_sample
      norm_num [h1s]
    have h2gfs : get_final_speed t1.min_speed_samples
        (add_speed_sample t1.speed_data P (some 24) P) = some none := by
      rw [h2sd, h1min]
      simp [get_final_speed]
    have h2p : t2.detected_plates =
        [(P, { vehicle_id := 1, plate_number := P, first_detected_frame := 1
               detection_time := 0, bbox := bbC1, final_speed := none
               speed_status := SpeedStatus.calculating 2 3, total_speed_samples := 0 })] := by
      rw [ht2def]
      simp only [detect_vehicle, h2scrut, h2gfs]
      simp [lookupInfo, h1p, dictInsert, h2sd, h1min]
    have h2min : t2.min_speed_samples = 3 := by
      rw [ht2def]
      simp only [detect_vehicle, h2scrut, h2gfs]
      simpa using h1min
    have h2s : t2.speed_data P = [20, 24] := by
      rw [ht2def]
      simp only [detect_vehicle, h2scrut, h2gfs]
      simpa using h2sd
    have hrun : runOps (initTracker (4/5) 3)
        [Op.detect P bbC1 1 (some 20) 0, Op.detect P bbC1 2 (some 24) 0,
         Op.finalizeAll] = (finalize_all_speeds t2).1 := rfl
    rw [hrun]
    have hmean : round1 (mean (t2.speed_data P)) = 22 := by
      rw [h2s]
      norm_num [mean, round1, roundHalfEven]
    have hfi : finalize_info t2.min_speed_samples t2.speed_data
        (P, { vehicle_id := 1, plate_number := P, first_detected_frame := 1
              detection_time := 0, bbox := bbC1, final_speed := none
              speed_status := SpeedStatus.calculating 2 3, total_speed_samples := 0 }) =
        some (P, { vehicle_id := 1, plate_number := P, first_detected_frame := 1
                   detection_time := 0, bbox := bbC1, final_speed := some 22
                   speed_status := SpeedStatus.estimatedFrom 2
                   total_speed_samples := 2 }) := by
      have heq := finalize_info_of_lt t2.min_speed_samples t2.speed_data
        (P, { vehicle_id := 1, plate_number := P, first_detected_frame := 1
              detection_time := 0, bbox := bbC1, final_speed := none
              speed_status := SpeedStatus.calculating 2 3, total_speed_samples := 0 })
        rfl (by rw [h2s]; decide) (by rw [h2s, h2min]; decide)
      rw [heq, hmean]
      rw [show (t2.speed_data P).length = 2 from by rw [h2s]; rfl]
    show ((finalizeList t2.min_speed_samples t2.speed_data t2.detected_plates).1.map
      (fun e => (e.2.final_speed, e.2.speed_status))) = [(some 22, SpeedStatus.estimatedFrom 2)]
    rw [h2p]
    simp only [finalizeList, hfi]
    rfl

/-- Witness for C8 at the empty registry with the default configuration. -/
theorem C8_finalize_all_witness : (finalize_all_speeds (initTracker (4/5) 3)).2 = true := by
  exact (C8_finalize_all (initTracker (4/5) 3) (by decide)).1
